import Mathlib

/-!
Verification development for the Claude verification client of
gh-spec-verify (file internal/ai/claude.go).

The Go file implements provider construction (NewClaudeProvider), prompt
rendering (buildVerificationPrompt), the outbound HTTP request of Verify,
the response pipeline of Verify (status check, envelope decode, provider
error check, empty content check), and result extraction
(parseVerificationResult: a regex fence match followed by a JSON decode).

Strings are handled as lists of characters (String.data); the JSON codec
used through encoding/json is embedded as an executable scanner and
decoder over that representation.
-/

/-- isWS is the whitespace class of the RE2 escape used in the claude.go
regex: tab, newline, form feed, carriage return, space. -/
def isWS (c : Char) : Bool :=
  c == ' ' || c == '\t' || c == '\n' || c == '\x0c' || c == '\r'

/-- isJsonWS is the whitespace accepted between tokens by the Go JSON
scanner: space, tab, newline, carriage return. -/
def isJsonWS (c : Char) : Bool :=
  c == ' ' || c == '\t' || c == '\n' || c == '\r'

/-- isDigitCh tests for an ASCII decimal digit. -/
def isDigitCh (c : Char) : Bool := 48 ≤ c.toNat && c.toNat ≤ 57

/-- digitVal is the numeric value of an ASCII decimal digit. -/
def digitVal (c : Char) : Nat := c.toNat - 48

/-- hexVal is the numeric value of an ASCII hexadecimal digit, in either
case, or none for any other character. -/
def hexVal (c : Char) : Option Nat :=
  if 48 ≤ c.toNat && c.toNat ≤ 57 then some (c.toNat - 48)
  else if 97 ≤ c.toNat && c.toNat ≤ 102 then some (c.toNat - 87)
  else if 65 ≤ c.toNat && c.toNat ≤ 70 then some (c.toNat - 55)
  else none

/-- asciiLower folds ASCII letters to lower case; encoding/json matches
object keys to field tags with such a fold when no exact match exists. -/
def asciiLower (c : Char) : Char :=
  if 65 ≤ c.toNat && c.toNat ≤ 90 then Char.ofNat (c.toNat + 32) else c

/-- leadsWith pat cs holds when pat is an initial run of cs. -/
def leadsWith : List Char → List Char → Bool
  | [], _ => true
  | _ :: _, [] => false
  | p :: ps, c :: cs => p == c && leadsWith ps cs

/-- hasSub pat cs holds when pat occurs contiguously somewhere in cs. -/
def hasSub (pat : List Char) (cs : List Char) : Bool :=
  leadsWith pat cs ||
    match cs with
    | [] => false
    | _ :: rest => hasSub pat rest

/-- dropWS removes the maximal run of regex whitespace at the front. -/
def dropWS : List Char → List Char
  | [] => []
  | c :: rest => if isWS c then dropWS rest else c :: rest

/-- skipJsonWS removes the maximal run of JSON whitespace at the front. -/
def skipJsonWS : List Char → List Char
  | [] => []
  | c :: rest => if isJsonWS c then skipJsonWS rest else c :: rest

/-- lastD d cs is the last character of cs, or d when cs is empty. -/
def lastD (d : Char) : List Char → Char
  | [] => d
  | c :: rest => lastD c rest

/-- Json is the value shape produced by the Go JSON scanner; numbers are
carried as integers, which covers every number this program produces or
consumes. -/
inductive Json where
  | null
  | bool (b : Bool)
  | num (n : Int)
  | str (s : String)
  | arr (elems : List Json)
  | obj (members : List (String × Json))

/-- escMap gives the character denoted by a single-letter JSON string
escape. -/
def escMap (e : Char) : Option Char :=
  if e == '"' then some '"'
  else if e == '\\' then some '\\'
  else if e == '/' then some '/'
  else if e == 'b' then some '\x08'
  else if e == 'f' then some '\x0c'
  else if e == 'n' then some '\n'
  else if e == 'r' then some '\r'
  else if e == 't' then some '\t'
  else none

/-- uniChar is the character denoted by a uXXXX escape; UTF-16 surrogate
halves decode to the replacement character, as the Go decoder does for
unpaired halves. -/
def uniChar (code : Nat) : Char :=
  if 0xD800 ≤ code && code < 0xE000 then Char.ofNat 0xFFFD else Char.ofNat code

/-- parseStringBody reads the remainder of a JSON string literal after the
opening quote and returns the decoded characters together with the input
after the closing quote; unescaped control characters are rejected as in
the Go scanner. Every step consumes at least one character, so the fuel
passed by parseStringLit (the input length plus one) never runs out. -/
def parseStringBody : Nat → List Char → Option (List Char × List Char)
  | 0, _ => none
  | _ + 1, [] => none
  | fuel + 1, c :: rest =>
    if c == '"' then some ([], rest)
    else if c == '\\' then
      match rest with
      | [] => none
      | e :: rest2 =>
        if e == 'u' then
          match rest2 with
          | h1 :: h2 :: h3 :: h4 :: rest3 =>
            match hexVal h1, hexVal h2, hexVal h3, hexVal h4 with
            | some a, some b, some c2, some d =>
              (parseStringBody fuel rest3).map
                (fun p => (uniChar (((a * 16 + b) * 16 + c2) * 16 + d) :: p.1, p.2))
            | _, _, _, _ => none
          | _ => none
        else
          match escMap e with
          | some ch => (parseStringBody fuel rest2).map (fun p => (ch :: p.1, p.2))
          | none => none
    else if c.toNat < 32 then none
    else (parseStringBody fuel rest).map (fun p => (c :: p.1, p.2))

/-- parseStringLit reads a complete JSON string literal at the head of the
input. -/
def parseStringLit : List Char → Option (String × List Char)
  | [] => none
  | c :: rest =>
    if c == '"' then (parseStringBody (rest.length + 1) rest).map (fun p => (String.mk p.1, p.2))
    else none

/-- parseNatNum reads a decimal digit run with the JSON leading-zero rule
and fails when a fraction or exponent follows; the numbers this program
exchanges are integral. -/
def parseNatNum (cs : List Char) : Option (Nat × List Char) :=
  match cs.takeWhile isDigitCh, cs.dropWhile isDigitCh with
  | [], _ => none
  | d :: ds, rest =>
    if d == '0' && !ds.isEmpty then none
    else
      let h := rest.headD ' '
      if h == '.' || h == 'e' || h == 'E' then none
      else some ((d :: ds).foldl (fun a c => 10 * a + digitVal c) 0, rest)

/-- parseNumber reads a JSON integer, optionally negated. -/
def parseNumber (cs : List Char) : Option (Int × List Char) :=
  match cs with
  | [] => none
  | c :: rest =>
    if c == '-' then (parseNatNum rest).map (fun p => (-(p.1 : Int), p.2))
    else (parseNatNum cs).map (fun p => ((p.1 : Int), p.2))

mutual

/-- parseValue reads one JSON value at the head of the input (no leading
whitespace) and returns it with the remaining input; fuel bounds the
nesting recursion and is chosen in parseJsonStr so that it never runs
out. -/
def parseValue : Nat → List Char → Option (Json × List Char)
  | 0, _ => none
  | _ + 1, [] => none
  | fuel + 1, c :: rest =>
    if leadsWith "null".data (c :: rest) then some (Json.null, (c :: rest).drop 4)
    else if leadsWith "true".data (c :: rest) then some (Json.bool true, (c :: rest).drop 4)
    else if leadsWith "false".data (c :: rest) then some (Json.bool false, (c :: rest).drop 5)
    else if c == '"' then (parseStringLit (c :: rest)).map (fun p => (Json.str p.1, p.2))
    else if c == '-' || isDigitCh c then
      (parseNumber (c :: rest)).map (fun p => (Json.num p.1, p.2))
    else if c == '[' then
      match skipJsonWS rest with
      | [] => none
      | d :: rest2 =>
        if d == ']' then some (Json.arr [], rest2)
        else (parseElems fuel (d :: rest2)).map (fun p => (Json.arr p.1, p.2))
    else if c == '\x7b' then
      match skipJsonWS rest with
      | [] => none
      | d :: rest2 =>
        if d == '\x7d' then some (Json.obj [], rest2)
        else (parseMembers fuel (d :: rest2)).map (fun p => (Json.obj p.1, p.2))
    else none

/-- parseElems reads the comma-separated elements of a nonempty JSON array
up to and including the closing bracket. -/
def parseElems : Nat → List Char → Option (List Json × List Char)
  | 0, _ => none
  | fuel + 1, cs =>
    match parseValue fuel (skipJsonWS cs) with
    | none => none
    | some (j, r) =>
      match skipJsonWS r with
      | [] => none
      | d :: r2 =>
        if d == ',' then (parseElems fuel r2).map (fun p => (j :: p.1, p.2))
        else if d == ']' then some ([j], r2)
        else none

/-- parseMembers reads the comma-separated members of a nonempty JSON
object up to and including the closing brace. -/
def parseMembers : Nat → List Char → Option (List (String × Json) × List Char)
  | 0, _ => none
  | fuel + 1, cs =>
    match parseStringLit (skipJsonWS cs) with
    | none => none
    | some (k, r) =>
      match skipJsonWS r with
      | [] => none
      | c :: r2 =>
        if c == ':' then
          match parseValue fuel (skipJsonWS r2) with
          | none => none
          | some (v, r3) =>
            match skipJsonWS r3 with
            | [] => none
            | d :: r4 =>
              if d == ',' then (parseMembers fuel r4).map (fun p => ((k, v) :: p.1, p.2))
              else if d == '\x7d' then some ([(k, v)], r4)
              else none
        else none

end

/-- parseJsonStr runs the scanner the way json.Unmarshal does: exactly one
value, with only whitespace allowed before and after it. -/
def parseJsonStr (s : String) : Option Json :=
  match parseValue (2 * s.data.length + 20) (skipJsonWS s.data) with
  | none => none
  | some (j, r) =>
    match skipJsonWS r with
    | [] => some j
    | _ :: _ => none

/-- Modelled from the spec: the VerificationResult type is declared outside
the provided source file (claude.go only references it), so its fields
follow the spec: matchPercentage (numeric, carried as an integer),
matchedItems and unmatchedItems (sequences of strings) and notes (a
string), decoded with the leniency of encoding/json (unknown keys ignored,
missing keys left at their zero values, later duplicates win, no range
validation of matchPercentage). -/
structure VerificationResult where
  matchPercentage : Int
  matchedItems : List String
  unmatchedItems : List String
  notes : String
deriving DecidableEq

/-- vrZero is the zero value the decoder starts from. -/
def vrZero : VerificationResult := ⟨0, [], [], ""⟩

/-- keyMatches embeds the field matching of encoding/json: an exact tag
match or a case fold. -/
def keyMatches (k tag : String) : Bool :=
  k == tag || k.data.map asciiLower == tag.data.map asciiLower

/-- decodeStrList decodes a JSON array of strings, failing on any
non-string element as encoding/json does for a []string field. -/
def decodeStrList (j : Json) : Option (List String) :=
  match j with
  | Json.arr xs =>
    xs.mapM (fun x => match x with | Json.str s => some s | _ => none)
  | _ => none

/-- setVRField applies one object member to a partially decoded
VerificationResult: null leaves scalar fields alone and clears slice
fields, a wrong type is an error, unknown keys are skipped. -/
def setVRField (r : VerificationResult) (k : String) (v : Json) :
    Option VerificationResult :=
  if keyMatches k "matchPercentage" then
    match v with
    | Json.num n => some { r with matchPercentage := n }
    | Json.null => some r
    | _ => none
  else if keyMatches k "matchedItems" then
    match v with
    | Json.null => some { r with matchedItems := [] }
    | _ => (decodeStrList v).map (fun l => { r with matchedItems := l })
  else if keyMatches k "unmatchedItems" then
    match v with
    | Json.null => some { r with unmatchedItems := [] }
    | _ => (decodeStrList v).map (fun l => { r with unmatchedItems := l })
  else if keyMatches k "notes" then
    match v with
    | Json.str s => some { r with notes := s }
    | Json.null => some r
    | _ => none
  else some r

/-- decodeVR decodes a JSON value into a VerificationResult the way
json.Unmarshal fills a struct: the value must be an object (or null, a
no-op), and members are applied left to right. -/
def decodeVR (j : Json) : Option VerificationResult :=
  match j with
  | Json.null => some vrZero
  | Json.obj ms => ms.foldlM (fun r kv => setVRField r kv.1 kv.2) vrZero
  | _ => none

/-- jsonDecodeVR is json.Unmarshal of a payload string into
VerificationResult. -/
def jsonDecodeVR (s : String) : Option VerificationResult :=
  (parseJsonStr s).bind decodeVR

/-- contentItem is one element of the content array of the claudeResponse
envelope of claude.go. -/
structure contentItem where
  type : String
  text : String
deriving DecidableEq

/-- claudeAPIError is the error object of the claudeResponse envelope of
claude.go. -/
structure claudeAPIError where
  type : String
  message : String
deriving DecidableEq

/-- claudeResponse embeds the envelope struct of claude.go: a content array
and an optional error object. -/
structure claudeResponse where
  content : List contentItem
  error : Option claudeAPIError
deriving DecidableEq

/-- setContentField applies one object member to a content item. -/
def setContentField (it : contentItem) (k : String) (v : Json) : Option contentItem :=
  if keyMatches k "type" then
    match v with
    | Json.str s => some { it with type := s }
    | Json.null => some it
    | _ => none
  else if keyMatches k "text" then
    match v with
    | Json.str s => some { it with text := s }
    | Json.null => some it
    | _ => none
  else some it

/-- decodeContentItem decodes one element of the content array. -/
def decodeContentItem (j : Json) : Option contentItem :=
  match j with
  | Json.null => some ⟨"", ""⟩
  | Json.obj ms => ms.foldlM (fun it kv => setContentField it kv.1 kv.2) ⟨"", ""⟩
  | _ => none

/-- setErrorField applies one object member to the envelope error object. -/
def setErrorField (e : claudeAPIError) (k : String) (v : Json) : Option claudeAPIError :=
  if keyMatches k "type" then
    match v with
    | Json.str s => some { e with type := s }
    | Json.null => some e
    | _ => none
  else if keyMatches k "message" then
    match v with
    | Json.str s => some { e with message := s }
    | Json.null => some e
    | _ => none
  else some e

/-- decodeClaudeError decodes the envelope error object. -/
def decodeClaudeError (j : Json) : Option claudeAPIError :=
  match j with
  | Json.obj ms => ms.foldlM (fun e kv => setErrorField e kv.1 kv.2) ⟨"", ""⟩
  | _ => none

/-- setRespField applies one object member to the envelope: content must be
an array (or null), error must be an object (or null, leaving the pointer
nil as in Go). -/
def setRespField (r : claudeResponse) (k : String) (v : Json) : Option claudeResponse :=
  if keyMatches k "content" then
    match v with
    | Json.null => some { r with content := [] }
    | Json.arr xs => (xs.mapM decodeContentItem).map (fun l => { r with content := l })
    | _ => none
  else if keyMatches k "error" then
    match v with
    | Json.null => some { r with error := none }
    | Json.obj _ => (decodeClaudeError v).map (fun e => { r with error := some e })
    | _ => none
  else some r

/-- decodeClaudeResponse decodes a JSON value into the envelope. -/
def decodeClaudeResponse (j : Json) : Option claudeResponse :=
  match j with
  | Json.null => some ⟨[], none⟩
  | Json.obj ms => ms.foldlM (fun r kv => setRespField r kv.1 kv.2) ⟨[], none⟩
  | _ => none

/-- decodeClaudeResponseStr is json.Unmarshal of the response body into the
claudeResponse envelope. -/
def decodeClaudeResponseStr (s : String) : Option claudeResponse :=
  (parseJsonStr s).bind decodeClaudeResponse

/-- capGo implements the lazy capture group of the claude.go regex:
characters are taken one by one until the first position from which
optional whitespace followed by a closing fence matches. -/
def capGo : List Char → Option (List Char)
  | [] => none
  | c :: rest =>
    if leadsWith "```".data (dropWS (c :: rest)) then some []
    else (capGo rest).map (fun cap => c :: cap)

/-- captureAfterFence models the part of the regex after the literal fence
opener: greedy whitespace, then the lazy capture up to whitespace and a
closing fence. -/
def captureAfterFence (cs : List Char) : Option (List Char) :=
  capGo (dropWS cs)

/-- extractJsonBlock embeds FindStringSubmatch of the claude.go regex (a
triple-backtick fence labeled json, a lazy capture, a closing fence): the
capture group of the leftmost match, or none when the regex does not
match anywhere. -/
def extractJsonBlock : List Char → Option (List Char)
  | [] => none
  | c :: rest =>
    if leadsWith "```json".data (c :: rest) then
      match captureAfterFence ((c :: rest).drop 7) with
      | some cap => some cap
      | none => extractJsonBlock rest
    else extractJsonBlock rest

/-- extractPayload embeds the payload selection of parseVerificationResult:
the regex capture when the fence pattern matches, otherwise the whole
text. -/
def extractPayload (text : String) : String :=
  match extractJsonBlock text.data with
  | some cap => String.mk cap
  | none => text

/-- parseVerificationResult embeds the function of the same name of
claude.go: payload selection followed by the JSON decode into
VerificationResult. -/
def parseVerificationResult (text : String) : Except String VerificationResult :=
  match jsonDecodeVR (extractPayload text) with
  | some r => Except.ok r
  | none => Except.error "failed to parse verification result"

/-- ClaudeProvider embeds the struct of the same name of claude.go. -/
structure ClaudeProvider where
  apiKey : String
  model : String
deriving DecidableEq

/-- NewClaudeProvider embeds the constructor of claude.go: an empty key is
a configuration error, otherwise the provider is bound to the fixed model
id. -/
def NewClaudeProvider (apiKey : String) : Except String ClaudeProvider :=
  if apiKey == "" then Except.error "API key is required"
  else Except.ok ⟨apiKey, "claude-sonnet-4-20250514"⟩

/-- Name embeds the Name method of claude.go. -/
def ClaudeProvider.Name (_ : ClaudeProvider) : String := "claude"

/-- HTTPResponse is the observable outcome of the HTTP round trip inside
Verify: the status code and the raw body read from it. -/
structure HTTPResponse where
  statusCode : Nat
  body : String
deriving DecidableEq

/-- Verify embeds the response pipeline of ClaudeProvider.Verify in
claude.go, everything after the HTTP round trip (which is external input
here): the status check, the envelope decode, the provider error check,
the empty content check, and result extraction on the first content
item. -/
def Verify (resp : HTTPResponse) : Except String VerificationResult :=
  if resp.statusCode ≠ 200 then
    Except.error ("API error (status " ++ toString resp.statusCode ++ "): " ++ resp.body)
  else
    match decodeClaudeResponseStr resp.body with
    | none => Except.error "failed to parse response"
    | some cr =>
      match cr.error with
      | some e => Except.error ("API error: " ++ e.message)
      | none =>
        match cr.content with
        | [] => Except.error "empty response from API"
        | c :: _ => parseVerificationResult c.text

/-- claudeAPIURL is the fixed endpoint constant of claude.go. -/
def claudeAPIURL : String := "https://api.anthropic.com/v1/messages"

/-- hexDigitCh is the lower-case hexadecimal digit for a value below 16. -/
def hexDigitCh (n : Nat) : Char :=
  if n < 10 then Char.ofNat (48 + n) else Char.ofNat (87 + n)

/-- escapeChar is the per-character escaping of the encoding/json string
encoder with its default HTML escaping. -/
def escapeChar (c : Char) : List Char :=
  if c == '"' then ['\\', '"']
  else if c == '\\' then ['\\', '\\']
  else if c == '\n' then ['\\', 'n']
  else if c == '\r' then ['\\', 'r']
  else if c == '\t' then ['\\', 't']
  else if c == '<' then ['\\', 'u', '0', '0', '3', 'c']
  else if c == '>' then ['\\', 'u', '0', '0', '3', 'e']
  else if c == '&' then ['\\', 'u', '0', '0', '2', '6']
  else if c.toNat < 32 then
    '\\' :: 'u' :: '0' :: '0' :: [hexDigitCh (c.toNat / 16), hexDigitCh (c.toNat % 16)]
  else if c.toNat == 0x2028 then ['\\', 'u', '2', '0', '2', '8']
  else if c.toNat == 0x2029 then ['\\', 'u', '2', '0', '2', '9']
  else [c]

/-- encodeStringBody escapes every character of a string body. -/
def encodeStringBody : List Char → List Char
  | [] => []
  | c :: rest => escapeChar c ++ encodeStringBody rest

/-- encodeString renders a Go string as a JSON string literal the way
json.Marshal does. -/
def encodeString (s : String) : String :=
  String.mk ('"' :: (encodeStringBody s.data ++ ['"']))

/-- claudeMessage embeds the struct of the same name of claude.go. -/
structure claudeMessage where
  role : String
  content : String

/-- claudeRequest embeds the struct of the same name of claude.go. -/
structure claudeRequest where
  model : String
  maxTokens : Int
  messages : List claudeMessage

/-- marshalClaudeMessage renders one message the way json.Marshal renders
the claudeMessage struct, with its field tags in declaration order. -/
def marshalClaudeMessage (m : claudeMessage) : String :=
  "\x7b\"role\":" ++ encodeString m.role ++ ",\"content\":" ++ encodeString m.content ++ "\x7d"

/-- commaSep joins rendered values with commas, as the array encoder
does. -/
def commaSep : List String → String
  | [] => ""
  | [s] => s
  | s :: t :: rest => s ++ "," ++ commaSep (t :: rest)

/-- marshalClaudeRequest renders the request body the way json.Marshal
renders the claudeRequest struct of claude.go, with its field tags in
declaration order. -/
def marshalClaudeRequest (r : claudeRequest) : String :=
  "\x7b\"model\":" ++ encodeString r.model ++ ",\"max_tokens\":" ++ toString r.maxTokens ++
    ",\"messages\":[" ++ commaSep (r.messages.map marshalClaudeMessage) ++ "]\x7d"

/-- codeSectionEntry renders one file of the code map the way the loop of
buildVerificationPrompt does. -/
def codeSectionEntry (filePath content : String) : String :=
  "\n### " ++ filePath ++ "\n```\n" ++ content ++ "\n```\n"

/-- codeSection renders the whole code map in iteration order; Go map
iteration order is unspecified, so the map is taken here as an association
list in the order the runtime happens to produce. -/
def codeSection : List (String × String) → String
  | [] => ""
  | (p, c) :: rest => codeSectionEntry p c ++ codeSection rest

/-- buildVerificationPrompt embeds the prompt template of claude.go
verbatim, with the spec text and the rendered code section substituted
into it. -/
def buildVerificationPrompt (specContent : String)
    (codeContents : List (String × String)) : String :=
  "あなたはコードレビューの専門家です。以下のSPEC（仕様書）と実際のコードを比較して、一致度を評価してください。\n\n## SPEC（仕様書）\n" ++
    specContent ++
    "\n\n## 実際のコード\n" ++
    codeSection codeContents ++
    "\n\n## 評価基準\n以下の観点で評価してください：\n1. 画面構成: SPECに記載された要素がコードに存在するか\n2. 状態管理: SPECに記載された状態やフックが使用されているか\n3. 処理フロー: SPECに記載された処理フローがコードで実装されているか\n4. バリデーション: SPECに記載されたバリデーションルールが実装されているか\n5. エラーハンドリング: SPECに記載されたエラーケースが処理されているか\n\n## 出力形式\n以下のJSON形式で出力してください：\n```json\n\x7b\n  \"matchPercentage\": <0-100の数値>,\n  \"matchedItems\": [\"一致している項目1\", \"一致している項目2\", ...],\n  \"unmatchedItems\": [\"一致していない項目1\", \"一致していない項目2\", ...],\n  \"notes\": \"補足コメント（未実装の機能や改善点など）\"\n\x7d\n```\n\nJSONのみを出力してください。"

/-- HTTPRequest is the outbound request Verify hands to the HTTP client:
method, URL, headers in the order they are set, and the marshalled
body. -/
structure HTTPRequest where
  method : String
  url : String
  headers : List (String × String)
  body : String

/-- VerifyRequest embeds the request-building half of
ClaudeProvider.Verify: the rendered prompt is wrapped in a single user
message, the claudeRequest is marshalled, and the call is a POST to the
fixed URL with the three headers of claude.go. -/
def VerifyRequest (p : ClaudeProvider) (specContent : String)
    (codeContents : List (String × String)) : HTTPRequest :=
  let prompt := buildVerificationPrompt specContent codeContents
  let req : claudeRequest := ⟨p.model, 2000, [⟨"user", prompt⟩]⟩
  { method := "POST"
    url := claudeAPIURL
    headers := [("Content-Type", "application/json"), ("x-api-key", p.apiKey),
      ("anthropic-version", "2023-06-01")]
    body := marshalClaudeRequest req }

/-- isLabelChar holds for characters that can make up the info word of a
markdown fence: anything except whitespace and backticks. -/
def isLabelChar (c : Char) : Bool := !(isWS c) && c != '\x60'

/-- fenceLabelsGo scans for triple-backtick fences and collects the info
word attached to each, the empty word for an unlabeled fence. -/
def fenceLabelsGo : Nat → List Char → List (List Char)
  | 0, _ => []
  | _ + 1, [] => []
  | fuel + 1, c :: rest =>
    if leadsWith "```".data (c :: rest) then
      (rest.drop 2).takeWhile isLabelChar ::
        fenceLabelsGo fuel ((rest.drop 2).dropWhile isLabelChar)
    else fenceLabelsGo fuel rest

/-- fenceLabels lists the info words of all triple-backtick fences of a
text, in order. -/
def fenceLabels (cs : List Char) : List (List Char) := fenceLabelsGo cs.length cs

/-- digitCh is the ASCII digit for a value below 10. -/
def digitCh (d : Nat) : Char := Char.ofNat (48 + d)

/-- natToDec renders a natural number in decimal, most significant digit
first. -/
def natToDec (n : Nat) : List Char :=
  if n == 0 then ['0'] else ((Nat.digits 10 n).map digitCh).reverse

/-- pctPayload is a result payload whose only member encodes the given
match percentage. -/
def pctPayload (n : Nat) : String :=
  String.mk ("\x7b\"matchPercentage\":".data ++ natToDec n ++ ['\x7d'])

/-! Helper lemmas shared by several claims. -/

theorem leadsWith_append_self (pat rest : List Char) :
    leadsWith pat (pat ++ rest) = true := by
  induction pat with
  | nil => simp [leadsWith]
  | cons p ps ih => simp [leadsWith, ih]

theorem hasSub_cons (pat : List Char) (c : Char) (t : List Char) :
    hasSub pat (c :: t) = (leadsWith pat (c :: t) || hasSub pat t) := rfl

theorem hasSub_nil_pat : ∀ cs : List Char, hasSub [] cs = true
  | [] => rfl
  | c :: t => by rw [hasSub_cons, hasSub_nil_pat t]; simp

theorem hasSub_self_append (pat r : List Char) : hasSub pat (pat ++ r) = true := by
  cases pat with
  | nil => rw [List.nil_append]; exact hasSub_nil_pat r
  | cons p ps =>
    rw [List.cons_append, hasSub_cons, ← List.cons_append, leadsWith_append_self]
    simp

theorem hasSub_of_append (pat l r : List Char) :
    hasSub pat (l ++ (pat ++ r)) = true := by
  induction l with
  | nil => rw [List.nil_append]; exact hasSub_self_append pat r
  | cons c l ih => rw [List.cons_append, hasSub_cons, ih]; simp

theorem string_mk_data (s : String) : String.mk s.data = s := rfl

/-! Claim C4: client construction. -/

/-- C4: constructing a client with the empty credential always fails with
the configuration error and yields no client; any non-empty credential
succeeds and yields a client bound to the fixed remote model identifier
claude-sonnet-4-20250514. -/
theorem NewClaudeProvider_spec :
    NewClaudeProvider "" = Except.error "API key is required" ∧
    ∀ apiKey : String, apiKey ≠ "" →
      NewClaudeProvider apiKey = Except.ok ⟨apiKey, "claude-sonnet-4-20250514"⟩ := by
  refine ⟨rfl, ?_⟩
  intro k hk
  simp [NewClaudeProvider, hk]

/-- C4 witness: a concrete non-empty credential yields the client bound to
the fixed model identifier. -/
theorem NewClaudeProvider_spec_witness :
    NewClaudeProvider "sk-test" = Except.ok ⟨"sk-test", "claude-sonnet-4-20250514"⟩ :=
  NewClaudeProvider_spec.2 "sk-test" (by decide)

/-! Claim C3: HTTP status handling. -/

/-- C3: with status 200 and no envelope error Verify proceeds to content
extraction (its result is exactly the content-handling continuation);
with any other status Verify fails with the error that names the status
code and contains the raw body. -/
theorem Verify_status_spec :
    (∀ (resp : HTTPResponse) (cr : claudeResponse),
        resp.statusCode = 200 →
        decodeClaudeResponseStr resp.body = some cr →
        cr.error = none →
        Verify resp = (match cr.content with
          | [] => Except.error "empty response from API"
          | c :: _ => parseVerificationResult c.text)) ∧
    (∀ resp : HTTPResponse, resp.statusCode ≠ 200 →
        Verify resp =
          Except.error ("API error (status " ++ toString resp.statusCode ++ "): " ++ resp.body) ∧
        hasSub (toString resp.statusCode).data
          ("API error (status " ++ toString resp.statusCode ++ "): " ++ resp.body).data = true ∧
        hasSub resp.body.data
          ("API error (status " ++ toString resp.statusCode ++ "): " ++ resp.body).data = true) := by
  constructor
  · intro resp cr h200 hdec herr
    simp [Verify, h200, hdec, herr]
  · intro resp hne
    refine ⟨by simp [Verify, hne], ?_, ?_⟩
    · have h := hasSub_of_append (toString resp.statusCode).data
        "API error (status ".data ("): ".data ++ resp.body.data)
      simpa [String.data_append, List.append_assoc] using h
    · have h := hasSub_of_append resp.body.data
        ("API error (status ".data ++ (toString resp.statusCode).data ++ "): ".data) []
      simpa [String.data_append, List.append_assoc] using h

/-- C3 witness: a 200 response with one content item proceeds to
extraction of that item, and a 500 response with body oops fails with the
error naming status 500 and containing oops. -/
theorem Verify_status_spec_witness :
    Verify ⟨200, "\x7b\"content\":[\x7b\"type\":\"text\",\"text\":\"7\"\x7d]\x7d"⟩ =
      parseVerificationResult "7" ∧
    Verify ⟨500, "oops"⟩ = Except.error "API error (status 500): oops" := by
  constructor
  · exact Verify_status_spec.1 ⟨200, "\x7b\"content\":[\x7b\"type\":\"text\",\"text\":\"7\"\x7d]\x7d"⟩
      ⟨[⟨"text", "7"⟩], none⟩ rfl rfl rfl
  · exact (Verify_status_spec.2 ⟨500, "oops"⟩ (by decide)).1

/-! Claim C6: provider-reported error. -/

/-- C6: when the body decodes to an envelope whose error field is present,
Verify fails and its error message contains the provider-reported
message. -/
theorem Verify_providerError_spec :
    ∀ (resp : HTTPResponse) (cr : claudeResponse) (e : claudeAPIError),
      resp.statusCode = 200 →
      decodeClaudeResponseStr resp.body = some cr →
      cr.error = some e →
      Verify resp = Except.error ("API error: " ++ e.message) ∧
      hasSub e.message.data ("API error: " ++ e.message).data = true := by
  intro resp cr e h200 hdec herr
  refine ⟨by simp [Verify, h200, hdec, herr], ?_⟩
  have h := hasSub_of_append e.message.data "API error: ".data []
  simpa [String.data_append] using h

/-- C6 witness: a rate-limited error envelope makes Verify fail with the
provider message inside the returned error. -/
theorem Verify_providerError_spec_witness :
    Verify ⟨200, "\x7b\"error\":\x7b\"type\":\"rate_limit_error\",\"message\":\"rate limited\"\x7d\x7d"⟩ =
      Except.error "API error: rate limited" :=
  (Verify_providerError_spec
    ⟨200, "\x7b\"error\":\x7b\"type\":\"rate_limit_error\",\"message\":\"rate limited\"\x7d\x7d"⟩
    ⟨[], some ⟨"rate_limit_error", "rate limited"⟩⟩ ⟨"rate_limit_error", "rate limited"⟩
    rfl rfl rfl).1

/-! Claim C7: empty content. -/

/-- C7: a decoded envelope with no error and an empty content list makes
Verify fail with the empty response error. -/
theorem Verify_emptyContent_spec :
    ∀ (resp : HTTPResponse) (cr : claudeResponse),
      resp.statusCode = 200 →
      decodeClaudeResponseStr resp.body = some cr →
      cr.error = none →
      cr.content = [] →
      Verify resp = Except.error "empty response from API" := by
  intro resp cr h200 hdec herr hcont
  simp [Verify, h200, hdec, herr, hcont]

/-- C7 witness: the canned empty content envelope fails with the empty
response error. -/
theorem Verify_emptyContent_spec_witness :
    Verify ⟨200, "\x7b\"content\":[]\x7d"⟩ = Except.error "empty response from API" :=
  Verify_emptyContent_spec ⟨200, "\x7b\"content\":[]\x7d"⟩ ⟨[], none⟩ rfl rfl rfl rfl

/-! Claim C8: malformed payload. -/

/-- C8: when the extracted payload does not decode as the result shape,
Verify fails with the parse error and returns no result value at all, the
error branch of Except carrying nothing. -/
theorem Verify_malformedPayload_spec :
    ∀ (resp : HTTPResponse) (cr : claudeResponse) (c : contentItem) (rest : List contentItem),
      resp.statusCode = 200 →
      decodeClaudeResponseStr resp.body = some cr →
      cr.error = none →
      cr.content = c :: rest →
      jsonDecodeVR (extractPayload c.text) = none →
      Verify resp = Except.error "failed to parse verification result" := by
  intro resp cr c rest h200 hdec herr hcont hbad
  simp [Verify, h200, hdec, herr, hcont, parseVerificationResult, hbad]

/-- C8 witness: a content item whose text is not JSON at all makes Verify
fail with the parse error. -/
theorem Verify_malformedPayload_spec_witness :
    Verify ⟨200, "\x7b\"content\":[\x7b\"type\":\"text\",\"text\":\"not json\"\x7d]\x7d"⟩ =
      Except.error "failed to parse verification result" :=
  Verify_malformedPayload_spec
    ⟨200, "\x7b\"content\":[\x7b\"type\":\"text\",\"text\":\"not json\"\x7d]\x7d"⟩
    ⟨[⟨"text", "not json"⟩], none⟩ ⟨"text", "not json"⟩ []
    rfl rfl rfl rfl rfl

/-! Extraction lemmas: behavior of the claude.go regex on fenced and
unfenced texts. -/

theorem bt3_data : "```".data = ['\x60', '\x60', '\x60'] := rfl

theorem fence7_data : "```json".data = ['\x60', '\x60', '\x60', 'j', 's', 'o', 'n'] := rfl

theorem fence8_data : "```json\n".data = ['\x60', '\x60', '\x60', 'j', 's', 'o', 'n', '\n'] := rfl

theorem close4_data : "\n```".data = ['\n', '\x60', '\x60', '\x60'] := rfl

theorem dropWS_cons (c : Char) (l : List Char) :
    dropWS (c :: l) = if isWS c then dropWS l else c :: l := rfl

theorem capGo_cons (c : Char) (l : List Char) :
    capGo (c :: l) =
      (if leadsWith "```".data (dropWS (c :: l)) then some []
       else (capGo l).map (fun cap => c :: cap)) := rfl

theorem lastD_cons (a c : Char) (t : List Char) : lastD a (c :: t) = lastD c t := rfl

theorem extract_none_of_no_fence :
    ∀ cs : List Char, hasSub "```json".data cs = false → extractJsonBlock cs = none := by
  intro cs
  induction cs with
  | nil => intro _; rfl
  | cons c rest ih =>
    intro h
    rw [hasSub_cons] at h
    simp only [Bool.or_eq_false_iff] at h
    unfold extractJsonBlock
    rw [h.1]
    exact ih h.2

theorem notClose (t : List Char) :
    ∀ xs : List Char, xs ≠ [] → hasSub "```".data xs = false →
      isWS (lastD 'a' xs) = false →
      leadsWith "```".data (dropWS (xs ++ '\n' :: t)) = false := by
  intro xs
  induction xs with
  | nil => intro h; exact absurd rfl h
  | cons c xs ih =>
    intro _ hsub hlast
    rw [hasSub_cons] at hsub
    simp only [Bool.or_eq_false_iff] at hsub
    rw [List.cons_append, dropWS_cons]
    by_cases hws : isWS c
    · rw [if_pos hws]
      cases xs with
      | nil =>
        rw [lastD_cons] at hlast
        simp only [lastD] at hlast
        rw [hws] at hlast
        exact absurd hlast (by simp)
      | cons d xs' =>
        exact ih (by simp) hsub.2 hlast
    · rw [if_neg hws]
      cases xs with
      | nil => simp +decide [bt3_data, leadsWith]
      | cons d xs' =>
        cases xs' with
        | nil => simp +decide [bt3_data, leadsWith]
        | cons e xs'' =>
          have h1 := hsub.1
          rw [bt3_data]
          simp only [leadsWith] at h1 ⊢
          exact h1

theorem capLemma (post : List Char) :
    ∀ xs : List Char, hasSub "```".data xs = false →
      isWS (lastD 'a' xs) = false →
      capGo (xs ++ '\n' :: '\x60' :: '\x60' :: '\x60' :: post) = some xs := by
  intro xs
  induction xs with
  | nil =>
    intro _ _
    rw [List.nil_append, capGo_cons]
    simp +decide [bt3_data, dropWS, isWS, leadsWith]
  | cons c xs ih =>
    intro hsub hlast
    rw [hasSub_cons] at hsub
    simp only [Bool.or_eq_false_iff] at hsub
    rw [List.cons_append, capGo_cons]
    have hnc := notClose ('\x60' :: '\x60' :: '\x60' :: post) (c :: xs) (by simp)
      (by rw [hasSub_cons]; simp [hsub.1, hsub.2]) hlast
    rw [List.cons_append] at hnc
    rw [if_neg (by simp [hnc])]
    have hlast' : isWS (lastD 'a' xs) = false := by
      cases xs with
      | nil => decide
      | cons d xs' => rw [lastD_cons] at hlast ⊢; exact hlast
    rw [ih hsub.2 hlast']
    rfl

theorem extract_fenced (s post : String)
    (hsub : hasSub "```".data s.data = false)
    (hhead : isWS (s.data.headD 'a') = false)
    (hlast : isWS (lastD 'a' s.data) = false) :
    extractJsonBlock ("```json\n" ++ s ++ "\n```" ++ post).data = some s.data := by
  have hdata : ("```json\n" ++ s ++ "\n```" ++ post).data
      = '\x60' :: '\x60' :: '\x60' :: 'j' :: 's' :: 'o' :: 'n' :: '\n' ::
          (s.data ++ ('\n' :: '\x60' :: '\x60' :: '\x60' :: post.data)) := by
    simp [String.data_append, fence8_data, close4_data]
  rw [hdata]
  have hcap : captureAfterFence ('\n' ::
      (s.data ++ ('\n' :: '\x60' :: '\x60' :: '\x60' :: post.data))) = some s.data := by
    unfold captureAfterFence
    rw [dropWS_cons, if_pos (by decide)]
    cases hs : s.data with
    | nil =>
      rw [List.nil_append, dropWS_cons, if_pos (by decide),
        dropWS_cons, if_neg (by decide), capGo_cons]
      simp +decide [bt3_data, dropWS, leadsWith]
    | cons c cs =>
      have hc : isWS c = false := by
        rw [hs] at hhead
        simpa using hhead
      rw [List.cons_append, dropWS_cons, if_neg (by simp [hc]), ← List.cons_append]
      exact capLemma post.data (c :: cs) (hs ▸ hsub) (hs ▸ hlast)
  unfold extractJsonBlock
  rw [if_pos (by simp +decide [fence7_data, leadsWith])]
  simp only [List.drop_succ_cons, List.drop_zero]
  rw [hcap]

theorem leadsWith_of_append (p q : List Char) :
    ∀ cs, leadsWith (p ++ q) cs = true → leadsWith p cs = true := by
  induction p with
  | nil => intro cs _; rfl
  | cons a p ih =>
    intro cs h
    cases cs with
    | nil => rw [List.cons_append] at h; exact absurd h (by simp [leadsWith])
    | cons c cs' =>
      rw [List.cons_append] at h
      simp only [leadsWith, Bool.and_eq_true] at h ⊢
      exact ⟨h.1, ih cs' h.2⟩

theorem hasSub_append_right_false (p q : List Char) :
    ∀ cs, hasSub p cs = false → hasSub (p ++ q) cs = false := by
  intro cs
  induction cs with
  | nil =>
    intro h
    cases p with
    | nil => exact absurd h (by simp [hasSub, leadsWith])
    | cons a p' => rfl
  | cons c t ih =>
    intro h
    rw [hasSub_cons] at h ⊢
    simp only [Bool.or_eq_false_iff] at h ⊢
    refine ⟨?_, ih h.2⟩
    cases hlw : leadsWith (p ++ q) (c :: t) with
    | false => rfl
    | true => exact absurd (leadsWith_of_append p q _ hlw) (by simp [h.1])

/-! Claim C1: fenced payload extraction. -/

/-- C1: for every HTTP response whose first content item wraps a valid
result-shaped JSON object in a triple-backtick fence labeled json, Verify
returns exactly the decoded values of the fenced interior: the capture of
the first such fence is the payload handed to the JSON decoder. -/
theorem Verify_fencedJson_spec :
    ∀ (resp : HTTPResponse) (cr : claudeResponse) (ci : contentItem)
      (rest : List contentItem) (s post : String) (r : VerificationResult),
      resp.statusCode = 200 →
      decodeClaudeResponseStr resp.body = some cr →
      cr.error = none →
      cr.content = ci :: rest →
      ci.text = "```json\n" ++ s ++ "\n```" ++ post →
      hasSub "```".data s.data = false →
      isWS (s.data.headD 'a') = false →
      isWS (lastD 'a' s.data) = false →
      jsonDecodeVR s = some r →
      Verify resp = Except.ok r := by
  intro resp cr ci rest s post r h200 hdec herr hcont htext hsub hhead hlast hjson
  have hx := extract_fenced s post hsub hhead hlast
  simp at hx
  simp [Verify, h200, hdec, herr, hcont, parseVerificationResult, extractPayload, htext,
    hx, string_mk_data, hjson]

set_option maxRecDepth 10000 in
/-- C1 witness: the canned fenced response yields exactly the encoded
result. -/
theorem Verify_fencedJson_spec_witness :
    Verify ⟨200, "\x7b\"content\":[\x7b\"type\":\"text\",\"text\":\"```json\\n\x7b\\\"matchPercentage\\\":80,\\\"matchedItems\\\":[\\\"a\\\"],\\\"unmatchedItems\\\":[],\\\"notes\\\":\\\"n\\\"\x7d\\n```\"\x7d]\x7d"⟩ =
      Except.ok ⟨80, ["a"], [], "n"⟩ :=
  Verify_fencedJson_spec
    ⟨200, "\x7b\"content\":[\x7b\"type\":\"text\",\"text\":\"```json\\n\x7b\\\"matchPercentage\\\":80,\\\"matchedItems\\\":[\\\"a\\\"],\\\"unmatchedItems\\\":[],\\\"notes\\\":\\\"n\\\"\x7d\\n```\"\x7d]\x7d"⟩
    ⟨[⟨"text", "```json\n\x7b\"matchPercentage\":80,\"matchedItems\":[\"a\"],\"unmatchedItems\":[],\"notes\":\"n\"\x7d\n```"⟩], none⟩
    ⟨"text", "```json\n\x7b\"matchPercentage\":80,\"matchedItems\":[\"a\"],\"unmatchedItems\":[],\"notes\":\"n\"\x7d\n```"⟩
    []
    "\x7b\"matchPercentage\":80,\"matchedItems\":[\"a\"],\"unmatchedItems\":[],\"notes\":\"n\"\x7d"
    "" ⟨80, ["a"], [], "n"⟩
    rfl rfl rfl rfl rfl (by decide) (by decide) (by decide) rfl

/-! Claim C2: the fence is optional. -/

/-- C2: for every result-shaped JSON string with no triple-backtick fence
inside it, extraction on the bare string succeeds and agrees with
extraction on the same string wrapped in a json-labeled fence. -/
theorem parseVerificationResult_fence_optional :
    ∀ (s : String) (r : VerificationResult),
      hasSub "```".data s.data = false →
      isWS (s.data.headD 'a') = false →
      isWS (lastD 'a' s.data) = false →
      jsonDecodeVR s = some r →
      parseVerificationResult s = parseVerificationResult ("```json\n" ++ s ++ "\n```") ∧
      parseVerificationResult s = Except.ok r := by
  intro s r hsub hhead hlast hjson
  have hnone : extractJsonBlock s.data = none :=
    extract_none_of_no_fence s.data (by
      have hsplit : "```json".data = "```".data ++ "json".data := rfl
      rw [hsplit]
      exact hasSub_append_right_false _ _ _ hsub)
  have h1 : parseVerificationResult s = Except.ok r := by
    simp [parseVerificationResult, extractPayload, hnone, hjson]
  have hfence : extractJsonBlock ("```json\n" ++ s ++ "\n```").data = some s.data := by
    have h := extract_fenced s "" hsub hhead hlast
    simpa using h
  have h2 : parseVerificationResult ("```json\n" ++ s ++ "\n```") = Except.ok r := by
    simp at hfence
    simp [parseVerificationResult, extractPayload, hfence, string_mk_data, hjson]
  exact ⟨h1.trans h2.symm, h1⟩

/-- C2 witness: a concrete unfenced payload extracts identically to its
fenced wrapping. -/
theorem parseVerificationResult_fence_optional_witness :
    parseVerificationResult "\x7b\"matchPercentage\":80,\"matchedItems\":[\"a\"],\"unmatchedItems\":[],\"notes\":\"n\"\x7d" =
      parseVerificationResult "```json\n\x7b\"matchPercentage\":80,\"matchedItems\":[\"a\"],\"unmatchedItems\":[],\"notes\":\"n\"\x7d\n```" ∧
    parseVerificationResult "\x7b\"matchPercentage\":80,\"matchedItems\":[\"a\"],\"unmatchedItems\":[],\"notes\":\"n\"\x7d" =
      Except.ok ⟨80, ["a"], [], "n"⟩ :=
  parseVerificationResult_fence_optional
    "\x7b\"matchPercentage\":80,\"matchedItems\":[\"a\"],\"unmatchedItems\":[],\"notes\":\"n\"\x7d"
    ⟨80, ["a"], [], "n"⟩ (by decide) (by decide) (by decide) rfl

/-! Claim C10: fences not labeled json. -/

theorem parseValue_backtick (f : Nat) (cs : List Char) :
    parseValue f ('\x60' :: cs) = none := by
  cases f with
  | zero => rfl
  | succ f => simp +decide [parseValue, leadsWith, isDigitCh]

theorem jsonDecodeVR_backtick (t : String) (cs : List Char) (ht : t.data = '\x60' :: cs) :
    jsonDecodeVR t = none := by
  unfold jsonDecodeVR parseJsonStr
  rw [ht]
  rw [skipJsonWS]
  rw [if_neg (by decide)]
  rw [parseValue_backtick]
  rfl

/- C10 counterexample: a text whose fences are labeled jsonc and
unlabeled, so none is labeled json, yet the regex does match it (its
capture, not the whole text, becomes the payload), refuting the claim
that the regex cannot match such a text; the fenced interior alone would
decode as a result. -/
set_option maxRecDepth 10000 in
/-- C10 counterexample continued: see the statement. -/
theorem extract_labeledFence_counterexample :
    fenceLabels "```jsonc\n\x7b\"matchPercentage\":80,\"matchedItems\":[],\"unmatchedItems\":[],\"notes\":\"\"\x7d\n```".data =
      ["jsonc".data, []] ∧
    (∀ l ∈ fenceLabels "```jsonc\n\x7b\"matchPercentage\":80,\"matchedItems\":[],\"unmatchedItems\":[],\"notes\":\"\"\x7d\n```".data,
      l ≠ "json".data) ∧
    extractJsonBlock "```jsonc\n\x7b\"matchPercentage\":80,\"matchedItems\":[],\"unmatchedItems\":[],\"notes\":\"\"\x7d\n```".data =
      some ("c\n\x7b\"matchPercentage\":80,\"matchedItems\":[],\"unmatchedItems\":[],\"notes\":\"\"\x7d").data ∧
    jsonDecodeVR "\x7b\"matchPercentage\":80,\"matchedItems\":[],\"unmatchedItems\":[],\"notes\":\"\"\x7d" =
      some ⟨80, [], [], ""⟩ ∧
    parseVerificationResult "```jsonc\n\x7b\"matchPercentage\":80,\"matchedItems\":[],\"unmatchedItems\":[],\"notes\":\"\"\x7d\n```" =
      Except.error "failed to parse verification result" := by
  refine ⟨by decide, by decide, by decide, rfl, rfl⟩

/-- C10 amended: for every text in which the seven-character fence opener
labeled json never occurs (in particular a plain unlabeled fence), the
regex does not match, the entire text including the fence characters is
the payload handed to the decoder, and extraction fails even when the
fenced interior alone decodes as the result shape. -/
theorem extract_plainFence_amended :
    ∀ (inner : String) (r : VerificationResult),
      hasSub "```json".data ("```\n" ++ inner ++ "\n```").data = false →
      jsonDecodeVR inner = some r →
      extractJsonBlock ("```\n" ++ inner ++ "\n```").data = none ∧
      extractPayload ("```\n" ++ inner ++ "\n```") = ("```\n" ++ inner ++ "\n```") ∧
      parseVerificationResult ("```\n" ++ inner ++ "\n```") =
        Except.error "failed to parse verification result" := by
  intro inner r hsub hjson
  have hnone := extract_none_of_no_fence _ hsub
  have hpay : extractPayload ("```\n" ++ inner ++ "\n```") = ("```\n" ++ inner ++ "\n```") := by
    unfold extractPayload
    rw [hnone]
  have hdata : ("```\n" ++ inner ++ "\n```").data =
      '\x60' :: ('\x60' :: '\x60' :: '\n' :: (inner.data ++ ['\n', '\x60', '\x60', '\x60'])) := by
    simp [String.data_append]
  have hdec := jsonDecodeVR_backtick ("```\n" ++ inner ++ "\n```") _ hdata
  refine ⟨hnone, hpay, ?_⟩
  unfold parseVerificationResult
  rw [hpay, hdec]

/-- C10 amended witness: a concrete plain fence around a valid payload is
not matched, the whole text is the payload, and extraction fails. -/
theorem extract_plainFence_amended_witness :
    extractJsonBlock ("```\n" ++ "\x7b\"matchPercentage\":42\x7d" ++ "\n```").data = none ∧
    extractPayload ("```\n" ++ "\x7b\"matchPercentage\":42\x7d" ++ "\n```") =
      ("```\n" ++ "\x7b\"matchPercentage\":42\x7d" ++ "\n```") ∧
    parseVerificationResult ("```\n" ++ "\x7b\"matchPercentage\":42\x7d" ++ "\n```") =
      Except.error "failed to parse verification result" :=
  extract_plainFence_amended "\x7b\"matchPercentage\":42\x7d" ⟨42, [], [], ""⟩ (by decide) rfl

/-! Claim C5: the match percentage range. -/

theorem parseStringBody_plainChar (f : Nat) (c : Char) (rest : List Char)
    (h1 : (c == '"') = false) (h2 : (c == '\\') = false) (h3 : ¬(c.toNat < 32)) :
    parseStringBody (f + 1) (c :: rest) = (parseStringBody f rest).map (fun p => (c :: p.1, p.2)) := by
  rw [show parseStringBody (f + 1) (c :: rest) =
    (if (c == '"') = true then some ([], rest)
     else if (c == '\\') = true then
       (match rest with
        | [] => none
        | e :: rest2 =>
          if e == 'u' then
            match rest2 with
            | h1 :: h2 :: h3 :: h4 :: rest3 =>
              match hexVal h1, hexVal h2, hexVal h3, hexVal h4 with
              | some a, some b, some c2, some d =>
                (parseStringBody f rest3).map
                  (fun p => (uniChar (((a * 16 + b) * 16 + c2) * 16 + d) :: p.1, p.2))
              | _, _, _, _ => none
            | _ => none
          else
            match escMap e with
            | some ch => (parseStringBody f rest2).map (fun p => (ch :: p.1, p.2))
            | none => none)
     else if c.toNat < 32 then none
     else (parseStringBody f rest).map (fun p => (c :: p.1, p.2))) from rfl]
  rw [h1, h2]
  simp only [Bool.false_eq_true, if_false]
  rw [if_neg h3]

theorem parseStringBody_plainPrefix (xs : List Char) (f : Nat) (rest : List Char)
    (h : ∀ c ∈ xs, (c == '"') = false ∧ (c == '\\') = false ∧ ¬(c.toNat < 32)) :
    parseStringBody (xs.length + (f + 1)) (xs ++ '"' :: rest) = some (xs, rest) := by
  induction xs with
  | nil => rw [List.nil_append]; rfl
  | cons c xs ih =>
    have hc := h c (by simp)
    rw [List.cons_append,
      show (c :: xs).length + (f + 1) = (xs.length + (f + 1)) + 1 from by
        simp [List.length_cons]; ring,
      parseStringBody_plainChar _ c _ hc.1 hc.2.1 hc.2.2,
      ih (fun x hx => h x (by simp [hx]))]
    rfl

theorem parseStringLit_plainPrefix (xs : List Char) (rest : List Char)
    (h : ∀ c ∈ xs, (c == '"') = false ∧ (c == '\\') = false ∧ ¬(c.toNat < 32)) :
    parseStringLit ('"' :: (xs ++ '"' :: rest)) = some (String.mk xs, rest) := by
  rw [show parseStringLit ('"' :: (xs ++ '"' :: rest)) =
    (parseStringBody ((xs ++ '"' :: rest).length + 1) (xs ++ '"' :: rest)).map
      (fun p => (String.mk p.1, p.2)) from rfl]
  rw [show (xs ++ '"' :: rest).length + 1 = xs.length + (rest.length + 1 + 1) from by
    simp [List.length_append]; ring]
  rw [parseStringBody_plainPrefix xs (rest.length + 1) rest h]
  rfl

theorem digitCh_isDigit (d : Nat) (h : d < 10) : isDigitCh (digitCh d) = true := by
  interval_cases d <;> decide

theorem digitVal_digitCh (d : Nat) (h : d < 10) : digitVal (digitCh d) = d := by
  interval_cases d <;> decide

theorem natToDec_ne_nil (n : Nat) : natToDec n ≠ [] := by
  unfold natToDec
  by_cases h : n = 0
  · rw [if_pos (by simp [h])]
    simp
  · rw [if_neg (by simp [h])]
    have hd : Nat.digits 10 n ≠ [] := Nat.digits_ne_nil_iff_ne_zero.mpr h
    simp [hd]

theorem natToDec_all_digits (n : Nat) : ∀ c ∈ natToDec n, isDigitCh c = true := by
  unfold natToDec
  by_cases h : n = 0
  · intro c hc
    rw [if_pos (by simp [h])] at hc
    simp at hc
    rw [hc]
    decide
  · intro c hc
    rw [if_neg (by simp [h])] at hc
    simp only [List.mem_reverse, List.mem_map] at hc
    obtain ⟨d, hd, rfl⟩ := hc
    exact digitCh_isDigit d (Nat.digits_lt_base (by norm_num) hd)

theorem takeWhile_all_append (p : Char → Bool) (xs ys : List Char)
    (h : ∀ c ∈ xs, p c = true) :
    (xs ++ ys).takeWhile p = xs ++ ys.takeWhile p := by
  induction xs with
  | nil => simp
  | cons c xs ih =>
    rw [List.cons_append, List.takeWhile_cons, h c (by simp)]
    simp only [if_true]
    rw [List.cons_append, ih (fun c hc => h c (by simp [hc]))]

theorem dropWhile_all_append (p : Char → Bool) (xs ys : List Char)
    (h : ∀ c ∈ xs, p c = true) :
    (xs ++ ys).dropWhile p = ys.dropWhile p := by
  induction xs with
  | nil => simp
  | cons c xs ih =>
    rw [List.cons_append, List.dropWhile_cons, h c (by simp)]
    simp only [if_true]
    exact ih (fun c hc => h c (by simp [hc]))

theorem foldl_digits_rev (L : List Nat) (hL : ∀ d ∈ L, d < 10) (a : Nat) :
    ((L.map digitCh).reverse).foldl (fun x c => 10 * x + digitVal c) a =
      a * 10 ^ L.length + Nat.ofDigits 10 L := by
  induction L generalizing a with
  | nil => simp
  | cons d L ih =>
    rw [List.map_cons, List.reverse_cons, List.foldl_append]
    rw [ih (fun x hx => hL x (by simp [hx])) a]
    simp only [List.foldl_cons, List.foldl_nil]
    rw [digitVal_digitCh d (hL d (by simp))]
    rw [Nat.ofDigits_cons, List.length_cons, pow_succ]
    ring

theorem digitCh_ne_zero_char (g : Nat) (h0 : g ≠ 0) (h10 : g < 10) :
    (digitCh g == '0') = false := by
  interval_cases g <;> simp_all <;> decide

theorem natToDec_no_leading_zero (n : Nat) (d : Char) (ds : List Char)
    (hds : natToDec n = d :: ds) (hne : ds ≠ []) : (d == '0') = false := by
  by_cases h : n = 0
  · rw [h] at hds
    have h0 : natToDec 0 = ['0'] := by decide
    rw [h0] at hds
    cases hds
    exact absurd rfl hne
  · have hL : Nat.digits 10 n ≠ [] := Nat.digits_ne_nil_iff_ne_zero.mpr h
    have hform : natToDec n = ((Nat.digits 10 n).map digitCh).reverse := by
      unfold natToDec
      rw [if_neg (by simp [h])]
    have hh : (((Nat.digits 10 n).map digitCh).reverse).head? = some d := by
      rw [← hform, hds]
      rfl
    rw [List.head?_reverse, List.getLast?_map,
      List.getLast?_eq_getLast _ hL] at hh
    have hglast := Nat.getLast_digit_ne_zero 10 h
    have hlt : (Nat.digits 10 n).getLast hL < 10 :=
      Nat.digits_lt_base (by norm_num) (List.getLast_mem hL)
    have hd : digitCh ((Nat.digits 10 n).getLast hL) = d := by simpa using hh
    rw [← hd]
    exact digitCh_ne_zero_char _ hglast hlt

theorem natToDec_foldl (n : Nat) :
    (natToDec n).foldl (fun a c => 10 * a + digitVal c) 0 = n := by
  unfold natToDec
  by_cases h : n = 0
  · rw [if_pos (by simp [h])]
    simp [h, digitVal]
  · rw [if_neg (by simp [h])]
    rw [foldl_digits_rev _ (fun x hx => Nat.digits_lt_base (by norm_num) hx) 0]
    simp [Nat.ofDigits_digits]

theorem parseNatNum_natToDec (n : Nat) :
    parseNatNum (natToDec n ++ ['\x7d']) = some (n, ['\x7d']) := by
  have hdig := natToDec_all_digits n
  have htake : (natToDec n ++ ['\x7d']).takeWhile isDigitCh = natToDec n := by
    rw [takeWhile_all_append _ _ _ hdig,
      show List.takeWhile isDigitCh ['\x7d'] = [] from rfl, List.append_nil]
  have hdrop : (natToDec n ++ ['\x7d']).dropWhile isDigitCh = ['\x7d'] := by
    rw [dropWhile_all_append _ _ _ hdig]
    rfl
  obtain ⟨d, ds, hds⟩ : ∃ d ds, natToDec n = d :: ds := by
    cases hnd : natToDec n with
    | nil => exact absurd hnd (natToDec_ne_nil n)
    | cons d ds => exact ⟨d, ds, rfl⟩
  have hval : (d :: ds).foldl (fun a c => 10 * a + digitVal c) 0 = n := by
    rw [← hds]
    exact natToDec_foldl n
  have hlead : (d == '0' && !ds.isEmpty) = false := by
    cases hds' : ds with
    | nil => simp
    | cons e es =>
      rw [natToDec_no_leading_zero n d ds hds (by simp [hds'])]
      simp
  unfold parseNatNum
  rw [htake, hdrop, hds]
  simp +decide [hlead, hval]

theorem digit_char_facts (c : Char) (h : isDigitCh c = true) :
    isJsonWS c = false ∧ (c == '"') = false ∧ (c == '-') = false ∧
      (c == '[') = false ∧ (c == '\x7b') = false ∧
      ('n' == c) = false ∧ ('t' == c) = false ∧ ('f' == c) = false ∧
      ('\x60' == c) = false := by
  unfold isDigitCh at h
  simp only [Bool.and_eq_true, decide_eq_true_eq] at h
  have hne : ∀ x : Char, c.toNat ≠ x.toNat → (c == x) = false := by
    intro x hx
    rw [beq_eq_false_iff_ne]
    intro he
    exact hx (by rw [he])
  have hne2 : ∀ x : Char, x.toNat ≠ c.toNat → (x == c) = false := by
    intro x hx
    rw [beq_eq_false_iff_ne]
    intro he
    exact hx (by rw [he])
  refine ⟨?_, hne _ (by change c.toNat ≠ 34; omega), hne _ (by change c.toNat ≠ 45; omega),
    hne _ (by change c.toNat ≠ 91; omega), hne _ (by change c.toNat ≠ 123; omega),
    hne2 _ (by change (110 : Nat) ≠ c.toNat; omega),
    hne2 _ (by change (116 : Nat) ≠ c.toNat; omega),
    hne2 _ (by change (102 : Nat) ≠ c.toNat; omega),
    hne2 _ (by change (96 : Nat) ≠ c.toNat; omega)⟩
  unfold isJsonWS
  rw [hne _ (by change c.toNat ≠ 32; omega), hne _ (by change c.toNat ≠ 9; omega),
    hne _ (by change c.toNat ≠ 10; omega), hne _ (by change c.toNat ≠ 13; omega)]
  rfl

theorem parseValue_digitHead (f n : Nat) (d : Char) (ds : List Char)
    (hds : natToDec n = d :: ds) :
    parseValue (f + 1) (d :: (ds ++ ['\x7d'])) = some (Json.num (n : Int), ['\x7d']) := by
  have hdig : isDigitCh d = true := natToDec_all_digits n d (by rw [hds]; simp)
  have hf := digit_char_facts d hdig
  have hnum : parseNumber (d :: (ds ++ ['\x7d'])) = some ((n : Int), ['\x7d']) := by
    rw [show parseNumber (d :: (ds ++ ['\x7d'])) =
      (if (d == '-') = true then (parseNatNum (ds ++ ['\x7d'])).map (fun p => (-(p.1 : Int), p.2))
       else (parseNatNum (d :: (ds ++ ['\x7d']))).map (fun p => ((p.1 : Int), p.2))) from rfl]
    rw [hf.2.2.1]
    simp only [Bool.false_eq_true, if_false]
    rw [show (d :: (ds ++ ['\x7d'])) = ((d :: ds) ++ ['\x7d']) from rfl, ← hds,
      parseNatNum_natToDec]
    rfl
  rw [show parseValue (f + 1) (d :: (ds ++ ['\x7d'])) =
    (if leadsWith "null".data (d :: (ds ++ ['\x7d'])) then some (Json.null, (d :: (ds ++ ['\x7d'])).drop 4)
     else if leadsWith "true".data (d :: (ds ++ ['\x7d'])) then some (Json.bool true, (d :: (ds ++ ['\x7d'])).drop 4)
     else if leadsWith "false".data (d :: (ds ++ ['\x7d'])) then some (Json.bool false, (d :: (ds ++ ['\x7d'])).drop 5)
     else if d == '"' then (parseStringLit (d :: (ds ++ ['\x7d']))).map (fun p => (Json.str p.1, p.2))
     else if d == '-' || isDigitCh d then (parseNumber (d :: (ds ++ ['\x7d']))).map (fun p => (Json.num p.1, p.2))
     else if d == '[' then
       match skipJsonWS (ds ++ ['\x7d']) with
       | [] => none
       | e :: rest2 =>
         if e == ']' then some (Json.arr [], rest2)
         else (parseElems f (e :: rest2)).map (fun p => (Json.arr p.1, p.2))
     else if d == '\x7b' then
       match skipJsonWS (ds ++ ['\x7d']) with
       | [] => none
       | e :: rest2 =>
         if e == '\x7d' then some (Json.obj [], rest2)
         else (parseMembers f (e :: rest2)).map (fun p => (Json.obj p.1, p.2))
     else none) from rfl]
  rw [show leadsWith "null".data (d :: (ds ++ ['\x7d'])) =
      ('n' == d && leadsWith "ull".data (ds ++ ['\x7d'])) from rfl,
    show leadsWith "true".data (d :: (ds ++ ['\x7d'])) =
      ('t' == d && leadsWith "rue".data (ds ++ ['\x7d'])) from rfl,
    show leadsWith "false".data (d :: (ds ++ ['\x7d'])) =
      ('f' == d && leadsWith "alse".data (ds ++ ['\x7d'])) from rfl,
    hf.2.2.2.2.2.1, hf.2.2.2.2.2.2.1, hf.2.2.2.2.2.2.2.1, hf.2.1, hf.2.2.1]
  simp only [Bool.false_and, Bool.false_eq_true, if_false, hdig, Bool.or_true, if_true]
  rw [hnum]
  rfl

theorem parseMembers_pct (f n : Nat) (d : Char) (ds : List Char)
    (hds : natToDec n = d :: ds) :
    parseMembers (f + 2) ('"' :: 'm' :: 'a' :: 't' :: 'c' :: 'h' :: 'P' :: 'e' :: 'r' ::
        'c' :: 'e' :: 'n' :: 't' :: 'a' :: 'g' :: 'e' :: '"' :: ':' :: (d :: (ds ++ ['\x7d']))) =
      some ([("matchPercentage", Json.num (n : Int))], []) := by
  have hdig : isDigitCh d = true := natToDec_all_digits n d (by rw [hds]; simp)
  have hf := digit_char_facts d hdig
  have hval := parseValue_digitHead f n d ds hds
  have hlit : parseStringLit ('"' :: 'm' :: 'a' :: 't' :: 'c' :: 'h' :: 'P' :: 'e' :: 'r' ::
      'c' :: 'e' :: 'n' :: 't' :: 'a' :: 'g' :: 'e' :: '"' :: ':' :: (d :: (ds ++ ['\x7d']))) =
      some ("matchPercentage", ':' :: (d :: (ds ++ ['\x7d']))) := by
    have h := parseStringLit_plainPrefix
      ['m', 'a', 't', 'c', 'h', 'P', 'e', 'r', 'c', 'e', 'n', 't', 'a', 'g', 'e']
      (':' :: (d :: (ds ++ ['\x7d']))) (by decide)
    simpa using h
  have hskip : skipJsonWS (d :: (ds ++ ['\x7d'])) = d :: (ds ++ ['\x7d']) := by
    rw [show skipJsonWS (d :: (ds ++ ['\x7d'])) =
      (if isJsonWS d then skipJsonWS (ds ++ ['\x7d']) else d :: (ds ++ ['\x7d'])) from rfl,
      if_neg (by simp [hf.1])]
  show parseMembers ((f + 1) + 1) _ = _
  simp only [parseMembers,
    show skipJsonWS ('"' :: 'm' :: 'a' :: 't' :: 'c' :: 'h' :: 'P' :: 'e' :: 'r' ::
        'c' :: 'e' :: 'n' :: 't' :: 'a' :: 'g' :: 'e' :: '"' :: ':' :: (d :: (ds ++ ['\x7d']))) =
      ('"' :: 'm' :: 'a' :: 't' :: 'c' :: 'h' :: 'P' :: 'e' :: 'r' ::
        'c' :: 'e' :: 'n' :: 't' :: 'a' :: 'g' :: 'e' :: '"' :: ':' :: (d :: (ds ++ ['\x7d']))) from rfl,
    hlit,
    show skipJsonWS (':' :: (d :: (ds ++ ['\x7d']))) = ':' :: (d :: (ds ++ ['\x7d'])) from rfl,
    show (':' == ':') = true from rfl, if_true, hskip, hval,
    show skipJsonWS ['\x7d'] = ['\x7d'] from rfl,
    show ('\x7d' == ',') = false from rfl,
    show ('\x7d' == '\x7d') = true from rfl,
    Bool.false_eq_true, if_false]

theorem pctSkel_data : "\x7b\"matchPercentage\":".data =
    '\x7b' :: '"' :: 'm' :: 'a' :: 't' :: 'c' :: 'h' :: 'P' :: 'e' :: 'r' ::
      'c' :: 'e' :: 'n' :: 't' :: 'a' :: 'g' :: 'e' :: '"' :: [':'] := rfl

theorem jsonDecodeVR_pctPayload (n : Nat) :
    jsonDecodeVR (pctPayload n) = some ⟨(n : Int), [], [], ""⟩ := by
  obtain ⟨d, ds, hds⟩ : ∃ d ds, natToDec n = d :: ds := by
    cases hnd : natToDec n with
    | nil => exact absurd hnd (natToDec_ne_nil n)
    | cons d ds => exact ⟨d, ds, rfl⟩
  have hdata : (pctPayload n).data =
      '\x7b' :: '"' :: 'm' :: 'a' :: 't' :: 'c' :: 'h' :: 'P' :: 'e' :: 'r' ::
        'c' :: 'e' :: 'n' :: 't' :: 'a' :: 'g' :: 'e' :: '"' :: ':' :: (d :: (ds ++ ['\x7d'])) := by
    show "\x7b\"matchPercentage\":".data ++ natToDec n ++ ['\x7d'] = _
    rw [pctSkel_data, hds]
    simp
  unfold jsonDecodeVR parseJsonStr
  rw [hdata]
  have hlen : ('\x7b' :: '"' :: 'm' :: 'a' :: 't' :: 'c' :: 'h' :: 'P' :: 'e' :: 'r' ::
      'c' :: 'e' :: 'n' :: 't' :: 'a' :: 'g' :: 'e' :: '"' :: ':' :: (d :: (ds ++ ['\x7d']))).length =
      ds.length + 21 := by
    simp [List.length_cons, List.length_append]
  rw [hlen]
  have hful : 2 * (ds.length + 21) + 20 = ((2 * ds.length + 59) + 2) + 1 := by ring
  rw [hful]
  rw [show skipJsonWS ('\x7b' :: '"' :: 'm' :: 'a' :: 't' :: 'c' :: 'h' :: 'P' :: 'e' :: 'r' ::
      'c' :: 'e' :: 'n' :: 't' :: 'a' :: 'g' :: 'e' :: '"' :: ':' :: (d :: (ds ++ ['\x7d']))) =
    ('\x7b' :: '"' :: 'm' :: 'a' :: 't' :: 'c' :: 'h' :: 'P' :: 'e' :: 'r' ::
      'c' :: 'e' :: 'n' :: 't' :: 'a' :: 'g' :: 'e' :: '"' :: ':' :: (d :: (ds ++ ['\x7d']))) from rfl]
  rw [show parseValue (((2 * ds.length + 59) + 2) + 1)
      ('\x7b' :: '"' :: 'm' :: 'a' :: 't' :: 'c' :: 'h' :: 'P' :: 'e' :: 'r' ::
        'c' :: 'e' :: 'n' :: 't' :: 'a' :: 'g' :: 'e' :: '"' :: ':' :: (d :: (ds ++ ['\x7d']))) =
    (parseMembers ((2 * ds.length + 59) + 2)
      ('"' :: 'm' :: 'a' :: 't' :: 'c' :: 'h' :: 'P' :: 'e' :: 'r' ::
        'c' :: 'e' :: 'n' :: 't' :: 'a' :: 'g' :: 'e' :: '"' :: ':' :: (d :: (ds ++ ['\x7d'])))).map
      (fun p => (Json.obj p.1, p.2)) from rfl]
  rw [parseMembers_pct (2 * ds.length + 59) n d ds hds]
  rfl

theorem hasSub_fence_of_no_backtick :
    ∀ cs : List Char, (∀ c ∈ cs, ('\x60' == c) = false) → hasSub "```json".data cs = false := by
  intro cs
  induction cs with
  | nil => intro _; rfl
  | cons c t ih =>
    intro h
    rw [hasSub_cons]
    rw [show leadsWith "```json".data (c :: t) =
      ('\x60' == c && leadsWith "``json".data t) from rfl]
    rw [h c (by simp)]
    simp [ih (fun x hx => h x (by simp [hx]))]

theorem pctPayload_no_backtick (n : Nat) :
    ∀ c ∈ (pctPayload n).data, ('\x60' == c) = false := by
  intro c hc
  have hd : (pctPayload n).data = "\x7b\"matchPercentage\":".data ++ (natToDec n ++ ['\x7d']) := by
    show "\x7b\"matchPercentage\":".data ++ natToDec n ++ ['\x7d'] = _
    simp
  rw [hd] at hc
  simp only [List.mem_append, List.mem_singleton] at hc
  rcases hc with hc | hc | hc
  · exact (by decide : ∀ x ∈ "\x7b\"matchPercentage\":".data, ('\x60' == x) = false) c hc
  · exact (digit_char_facts c (natToDec_all_digits n c hc)).2.2.2.2.2.2.2.2
  · rw [hc]
    decide

/-- C5 amended: a successful extraction returns the matchPercentage
exactly as encoded in the payload, with no 0 to 100 range validation: for
every natural number n, including values above 100, the payload that
encodes n yields a result carrying n unchanged. -/
theorem parseVerificationResult_pct_unclamped (n : Nat) :
    parseVerificationResult (pctPayload n) = Except.ok ⟨(n : Int), [], [], ""⟩ := by
  have hnone : extractJsonBlock (pctPayload n).data = none :=
    extract_none_of_no_fence _ (hasSub_fence_of_no_backtick _ (pctPayload_no_backtick n))
  have hpay : extractPayload (pctPayload n) = pctPayload n := by
    unfold extractPayload
    rw [hnone]
  unfold parseVerificationResult
  rw [hpay, jsonDecodeVR_pctPayload]

/-- C5 counterexample: a successful call of Verify whose result carries
matchPercentage 150, which is not between 0 and 100, refuting the claim
that every returned result lies in that range. -/
theorem Verify_pctRange_counterexample :
    Verify ⟨200, "\x7b\"content\":[\x7b\"type\":\"text\",\"text\":\"\x7b\\\"matchPercentage\\\":150\x7d\"\x7d]\x7d"⟩ =
      Except.ok ⟨150, [], [], ""⟩ ∧ ¬((150 : Int) ≤ 100) :=
  ⟨rfl, by decide⟩

/-! Claim C9: the outbound request. -/

theorem hexVal_hexDigitCh (m : Nat) (h : m < 16) : hexVal (hexDigitCh m) = some m := by
  interval_cases m <;> decide

theorem one_le_escapeChar_length (c : Char) : 1 ≤ (escapeChar c).length := by
  unfold escapeChar
  by_cases h1 : (c == '"') = true
  · rw [if_pos h1]; decide
  rw [if_neg h1]
  by_cases h2 : (c == '\\') = true
  · rw [if_pos h2]; decide
  rw [if_neg h2]
  by_cases h3 : (c == '\n') = true
  · rw [if_pos h3]; decide
  rw [if_neg h3]
  by_cases h4 : (c == '\r') = true
  · rw [if_pos h4]; decide
  rw [if_neg h4]
  by_cases h5 : (c == '\t') = true
  · rw [if_pos h5]; decide
  rw [if_neg h5]
  by_cases h6 : (c == '<') = true
  · rw [if_pos h6]; decide
  rw [if_neg h6]
  by_cases h7 : (c == '>') = true
  · rw [if_pos h7]; decide
  rw [if_neg h7]
  by_cases h8 : (c == '&') = true
  · rw [if_pos h8]; decide
  rw [if_neg h8]
  by_cases h9 : c.toNat < 32
  · rw [if_pos h9]; simp
  rw [if_neg h9]
  by_cases h10 : (c.toNat == 8232) = true
  · rw [if_pos h10]; decide
  rw [if_neg h10]
  by_cases h11 : (c.toNat == 8233) = true
  · rw [if_pos h11]; decide
  rw [if_neg h11]
  simp

theorem encodeStringBody_length_ge (cs : List Char) :
    cs.length ≤ (encodeStringBody cs).length := by
  induction cs with
  | nil => simp [encodeStringBody]
  | cons c cs ih =>
    rw [show encodeStringBody (c :: cs) = escapeChar c ++ encodeStringBody cs from rfl]
    rw [List.length_cons, List.length_append]
    have h1 := one_le_escapeChar_length c
    omega

theorem parseStringBody_u_escape (M : Nat) (a b x y : Char) (va vb vx vy : Nat)
    (ha : hexVal a = some va) (hb : hexVal b = some vb)
    (hx : hexVal x = some vx) (hy : hexVal y = some vy) (r : List Char) :
    parseStringBody (M + 1) ('\\' :: 'u' :: a :: b :: x :: y :: r) =
      (parseStringBody M r).map
        (fun p => (uniChar (((va * 16 + vb) * 16 + vx) * 16 + vy) :: p.1, p.2)) := by
  simp only [parseStringBody, show ('\\' == '"') = false from rfl,
    show ('\\' == '\\') = true from rfl, show ('u' == 'u') = true from rfl,
    if_true, Bool.false_eq_true, if_false, ha, hb, hx, hy]

theorem uniChar_small (t : Nat) (h : t < 0xD800) : uniChar t = Char.ofNat t := by
  unfold uniChar
  rw [if_neg (by simp; omega)]

theorem parseStringBody_encode (cs : List Char) : ∀ (g : Nat) (rest : List Char),
    parseStringBody (cs.length + g + 1) (encodeStringBody cs ++ '"' :: rest) =
      some (cs, rest) := by
  induction cs with
  | nil => intro g rest; rfl
  | cons c cs ih =>
    intro g rest
    rw [show (c :: cs).length + g + 1 = (cs.length + g + 1) + 1 from by
      rw [List.length_cons]; omega]
    rw [show encodeStringBody (c :: cs) = escapeChar c ++ encodeStringBody cs from rfl]
    unfold escapeChar
    by_cases h1 : (c == '"') = true
    · rw [if_pos h1]
      simp only [List.cons_append, List.nil_append]
      rw [show parseStringBody ((cs.length + g + 1) + 1)
          ('\\' :: '"' :: (encodeStringBody cs ++ '"' :: rest)) =
        (parseStringBody (cs.length + g + 1) (encodeStringBody cs ++ '"' :: rest)).map
          (fun p => ('"' :: p.1, p.2)) from rfl]
      rw [ih g rest, show c = '"' from by simpa using h1]
      rfl
    rw [if_neg h1]
    by_cases h2 : (c == '\\') = true
    · rw [if_pos h2]
      simp only [List.cons_append, List.nil_append]
      rw [show parseStringBody ((cs.length + g + 1) + 1)
          ('\\' :: '\\' :: (encodeStringBody cs ++ '"' :: rest)) =
        (parseStringBody (cs.length + g + 1) (encodeStringBody cs ++ '"' :: rest)).map
          (fun p => ('\\' :: p.1, p.2)) from rfl]
      rw [ih g rest, show c = '\\' from by simpa using h2]
      rfl
    rw [if_neg h2]
    by_cases h3 : (c == '\n') = true
    · rw [if_pos h3]
      simp only [List.cons_append, List.nil_append]
      rw [show parseStringBody ((cs.length + g + 1) + 1)
          ('\\' :: 'n' :: (encodeStringBody cs ++ '"' :: rest)) =
        (parseStringBody (cs.length + g + 1) (encodeStringBody cs ++ '"' :: rest)).map
          (fun p => ('\n' :: p.1, p.2)) from rfl]
      rw [ih g rest, show c = '\n' from by simpa using h3]
      rfl
    rw [if_neg h3]
    by_cases h4 : (c == '\r') = true
    · rw [if_pos h4]
      simp only [List.cons_append, List.nil_append]
      rw [show parseStringBody ((cs.length + g + 1) + 1)
          ('\\' :: 'r' :: (encodeStringBody cs ++ '"' :: rest)) =
        (parseStringBody (cs.length + g + 1) (encodeStringBody cs ++ '"' :: rest)).map
          (fun p => ('\r' :: p.1, p.2)) from rfl]
      rw [ih g rest, show c = '\r' from by simpa using h4]
      rfl
    rw [if_neg h4]
    by_cases h5 : (c == '\t') = true
    · rw [if_pos h5]
      simp only [List.cons_append, List.nil_append]
      rw [show parseStringBody ((cs.length + g + 1) + 1)
          ('\\' :: 't' :: (encodeStringBody cs ++ '"' :: rest)) =
        (parseStringBody (cs.length + g + 1) (encodeStringBody cs ++ '"' :: rest)).map
          (fun p => ('\t' :: p.1, p.2)) from rfl]
      rw [ih g rest, show c = '\t' from by simpa using h5]
      rfl
    rw [if_neg h5]
    by_cases h6 : (c == '<') = true
    · rw [if_pos h6]
      simp only [List.cons_append, List.nil_append]
      rw [parseStringBody_u_escape _ '0' '0' '3' 'c' 0 0 3 12 rfl rfl rfl rfl]
      rw [ih g rest]
      rw [show uniChar (((0 * 16 + 0) * 16 + 3) * 16 + 12) = '<' from by decide]
      rw [show c = '<' from by simpa using h6]
      rfl
    rw [if_neg h6]
    by_cases h7 : (c == '>') = true
    · rw [if_pos h7]
      simp only [List.cons_append, List.nil_append]
      rw [parseStringBody_u_escape _ '0' '0' '3' 'e' 0 0 3 14 rfl rfl rfl rfl]
      rw [ih g rest]
      rw [show uniChar (((0 * 16 + 0) * 16 + 3) * 16 + 14) = '>' from by decide]
      rw [show c = '>' from by simpa using h7]
      rfl
    rw [if_neg h7]
    by_cases h8 : (c == '&') = true
    · rw [if_pos h8]
      simp only [List.cons_append, List.nil_append]
      rw [parseStringBody_u_escape _ '0' '0' '2' '6' 0 0 2 6 rfl rfl rfl rfl]
      rw [ih g rest]
      rw [show uniChar (((0 * 16 + 0) * 16 + 2) * 16 + 6) = '&' from by decide]
      rw [show c = '&' from by simpa using h8]
      rfl
    rw [if_neg h8]
    by_cases h9 : c.toNat < 32
    · rw [if_pos h9]
      simp only [List.cons_append, List.nil_append]
      rw [parseStringBody_u_escape _ '0' '0' _ _ 0 0 (c.toNat / 16) (c.toNat % 16)
        rfl rfl (hexVal_hexDigitCh _ (by omega)) (hexVal_hexDigitCh _ (by omega))]
      rw [ih g rest]
      rw [show ((0 * 16 + 0) * 16 + c.toNat / 16) * 16 + c.toNat % 16 = c.toNat from by omega]
      rw [uniChar_small c.toNat (by omega), Char.ofNat_toNat]
      rfl
    rw [if_neg h9]
    by_cases h10 : (c.toNat == 8232) = true
    · rw [if_pos h10]
      simp only [List.cons_append, List.nil_append]
      rw [parseStringBody_u_escape _ '2' '0' '2' '8' 2 0 2 8 rfl rfl rfl rfl]
      rw [ih g rest]
      rw [show uniChar (((2 * 16 + 0) * 16 + 2) * 16 + 8) = Char.ofNat 8232 from by decide]
      rw [show Char.ofNat 8232 = c from by
        have hc : c.toNat = 8232 := by simpa using h10
        rw [← hc, Char.ofNat_toNat]]
      rfl
    rw [if_neg h10]
    by_cases h11 : (c.toNat == 8233) = true
    · rw [if_pos h11]
      simp only [List.cons_append, List.nil_append]
      rw [parseStringBody_u_escape _ '2' '0' '2' '9' 2 0 2 9 rfl rfl rfl rfl]
      rw [ih g rest]
      rw [show uniChar (((2 * 16 + 0) * 16 + 2) * 16 + 9) = Char.ofNat 8233 from by decide]
      rw [show Char.ofNat 8233 = c from by
        have hc : c.toNat = 8233 := by simpa using h11
        rw [← hc, Char.ofNat_toNat]]
      rfl
    rw [if_neg h11]
    simp only [List.cons_append, List.nil_append]
    rw [parseStringBody_plainChar (cs.length + g + 1) c _ (by simpa using h1)
      (by simpa using h2) h9]
    rw [ih g rest]
    rfl

theorem parseStringLit_encode (s : String) (r : List Char) :
    parseStringLit ('"' :: (encodeStringBody s.data ++ '"' :: r)) = some (s, r) := by
  rw [show parseStringLit ('"' :: (encodeStringBody s.data ++ '"' :: r)) =
    (parseStringBody ((encodeStringBody s.data ++ '"' :: r).length + 1)
      (encodeStringBody s.data ++ '"' :: r)).map (fun p => (String.mk p.1, p.2)) from rfl]
  have hge := encodeStringBody_length_ge s.data
  rw [show (encodeStringBody s.data ++ '"' :: r).length + 1 =
    s.data.length + (((encodeStringBody s.data).length - s.data.length) + r.length + 1) + 1 from by
    rw [List.length_append, List.length_cons]; omega]
  rw [parseStringBody_encode s.data _ r]
  rfl

theorem parseValue_encodedStr (f : Nat) (s : String) (r : List Char) :
    parseValue (f + 1) ('"' :: (encodeStringBody s.data ++ '"' :: r)) =
      some (Json.str s, r) := by
  rw [show parseValue (f + 1) ('"' :: (encodeStringBody s.data ++ '"' :: r)) =
    (parseStringLit ('"' :: (encodeStringBody s.data ++ '"' :: r))).map
      (fun p => (Json.str p.1, p.2)) from rfl]
  rw [parseStringLit_encode]
  rfl

theorem parseMembers_content (f : Nat) (prompt : String) :
    parseMembers (f + 2) ('"' :: 'c' :: 'o' :: 'n' :: 't' :: 'e' :: 'n' :: 't' :: '"' :: ':' :: '"' ::
        (encodeStringBody prompt.data ++ '"' :: '\x7d' :: ']' :: ['\x7d'])) =
      some ([("content", Json.str prompt)], ']' :: ['\x7d']) := by
  have hkey : parseStringLit ('"' :: 'c' :: 'o' :: 'n' :: 't' :: 'e' :: 'n' :: 't' :: '"' :: ':' :: '"' ::
      (encodeStringBody prompt.data ++ '"' :: '\x7d' :: ']' :: ['\x7d'])) =
      some ("content", ':' :: '"' :: (encodeStringBody prompt.data ++ '"' :: '\x7d' :: ']' :: ['\x7d'])) := by
    have h := parseStringLit_plainPrefix ['c', 'o', 'n', 't', 'e', 'n', 't']
      (':' :: '"' :: (encodeStringBody prompt.data ++ '"' :: '\x7d' :: ']' :: ['\x7d'])) (by decide)
    simpa using h
  have hval : parseValue (f + 1) ('"' :: (encodeStringBody prompt.data ++ '"' :: '\x7d' :: ']' :: ['\x7d'])) =
      some (Json.str prompt, '\x7d' :: ']' :: ['\x7d']) :=
    parseValue_encodedStr f prompt ('\x7d' :: ']' :: ['\x7d'])
  rw [show (f + 2 : Nat) = (f + 1) + 1 from rfl]
  simp only [parseMembers,
    show skipJsonWS ('"' :: 'c' :: 'o' :: 'n' :: 't' :: 'e' :: 'n' :: 't' :: '"' :: ':' :: '"' ::
        (encodeStringBody prompt.data ++ '"' :: '\x7d' :: ']' :: ['\x7d'])) =
      ('"' :: 'c' :: 'o' :: 'n' :: 't' :: 'e' :: 'n' :: 't' :: '"' :: ':' :: '"' ::
        (encodeStringBody prompt.data ++ '"' :: '\x7d' :: ']' :: ['\x7d'])) from rfl,
    hkey,
    show skipJsonWS (':' :: '"' :: (encodeStringBody prompt.data ++ '"' :: '\x7d' :: ']' :: ['\x7d'])) =
      ':' :: '"' :: (encodeStringBody prompt.data ++ '"' :: '\x7d' :: ']' :: ['\x7d']) from rfl,
    show (':' == ':') = true from rfl, if_true,
    show skipJsonWS ('"' :: (encodeStringBody prompt.data ++ '"' :: '\x7d' :: ']' :: ['\x7d'])) =
      '"' :: (encodeStringBody prompt.data ++ '"' :: '\x7d' :: ']' :: ['\x7d']) from rfl,
    hval,
    show skipJsonWS ('\x7d' :: ']' :: ['\x7d']) = '\x7d' :: ']' :: ['\x7d'] from rfl,
    show ('\x7d' == ',') = false from rfl,
    show ('\x7d' == '\x7d') = true from rfl,
    Bool.false_eq_true, if_false]

theorem parseMembers_message (f : Nat) (prompt : String) :
    parseMembers (f + 3) ('"' :: 'r' :: 'o' :: 'l' :: 'e' :: '"' :: ':' ::
        '"' :: 'u' :: 's' :: 'e' :: 'r' :: '"' :: ',' ::
        '"' :: 'c' :: 'o' :: 'n' :: 't' :: 'e' :: 'n' :: 't' :: '"' :: ':' :: '"' ::
        (encodeStringBody prompt.data ++ '"' :: '\x7d' :: ']' :: ['\x7d'])) =
      some ([("role", Json.str "user"), ("content", Json.str prompt)], ']' :: ['\x7d']) := by
  have hkey : parseStringLit ('"' :: 'r' :: 'o' :: 'l' :: 'e' :: '"' :: ':' ::
      '"' :: 'u' :: 's' :: 'e' :: 'r' :: '"' :: ',' ::
      '"' :: 'c' :: 'o' :: 'n' :: 't' :: 'e' :: 'n' :: 't' :: '"' :: ':' :: '"' ::
      (encodeStringBody prompt.data ++ '"' :: '\x7d' :: ']' :: ['\x7d'])) =
      some ("role", ':' :: '"' :: 'u' :: 's' :: 'e' :: 'r' :: '"' :: ',' ::
        '"' :: 'c' :: 'o' :: 'n' :: 't' :: 'e' :: 'n' :: 't' :: '"' :: ':' :: '"' ::
        (encodeStringBody prompt.data ++ '"' :: '\x7d' :: ']' :: ['\x7d'])) := by
    have h := parseStringLit_plainPrefix ['r', 'o', 'l', 'e']
      (':' :: '"' :: 'u' :: 's' :: 'e' :: 'r' :: '"' :: ',' ::
        '"' :: 'c' :: 'o' :: 'n' :: 't' :: 'e' :: 'n' :: 't' :: '"' :: ':' :: '"' ::
        (encodeStringBody prompt.data ++ '"' :: '\x7d' :: ']' :: ['\x7d'])) (by decide)
    simpa using h
  have hval : parseValue (f + 2) ('"' :: 'u' :: 's' :: 'e' :: 'r' :: '"' :: ',' ::
      '"' :: 'c' :: 'o' :: 'n' :: 't' :: 'e' :: 'n' :: 't' :: '"' :: ':' :: '"' ::
      (encodeStringBody prompt.data ++ '"' :: '\x7d' :: ']' :: ['\x7d'])) =
      some (Json.str "user", ',' ::
        '"' :: 'c' :: 'o' :: 'n' :: 't' :: 'e' :: 'n' :: 't' :: '"' :: ':' :: '"' ::
        (encodeStringBody prompt.data ++ '"' :: '\x7d' :: ']' :: ['\x7d'])) := by
    rw [show (f + 2 : Nat) = (f + 1) + 1 from rfl]
    have h := parseValue_encodedStr (f + 1) "user" (',' ::
      '"' :: 'c' :: 'o' :: 'n' :: 't' :: 'e' :: 'n' :: 't' :: '"' :: ':' :: '"' ::
      (encodeStringBody prompt.data ++ '"' :: '\x7d' :: ']' :: ['\x7d']))
    rw [show encodeStringBody "user".data = ['u', 's', 'e', 'r'] from rfl] at h
    simpa using h
  have hkey2 : parseStringLit ('"' :: 'c' :: 'o' :: 'n' :: 't' :: 'e' :: 'n' :: 't' :: '"' :: ':' :: '"' ::
      (encodeStringBody prompt.data ++ '"' :: '\x7d' :: ']' :: ['\x7d'])) =
      some ("content", ':' :: '"' :: (encodeStringBody prompt.data ++ '"' :: '\x7d' :: ']' :: ['\x7d'])) := by
    have h := parseStringLit_plainPrefix ['c', 'o', 'n', 't', 'e', 'n', 't']
      (':' :: '"' :: (encodeStringBody prompt.data ++ '"' :: '\x7d' :: ']' :: ['\x7d'])) (by decide)
    simpa using h
  have hval2 : parseValue (f + 1) ('"' :: (encodeStringBody prompt.data ++ '"' :: '\x7d' :: ']' :: ['\x7d'])) =
      some (Json.str prompt, '\x7d' :: ']' :: ['\x7d']) :=
    parseValue_encodedStr f prompt ('\x7d' :: ']' :: ['\x7d'])
  rw [show (f + 3 : Nat) = (f + 2) + 1 from rfl]
  simp only [parseMembers,
    show skipJsonWS ('"' :: 'r' :: 'o' :: 'l' :: 'e' :: '"' :: ':' ::
        '"' :: 'u' :: 's' :: 'e' :: 'r' :: '"' :: ',' ::
        '"' :: 'c' :: 'o' :: 'n' :: 't' :: 'e' :: 'n' :: 't' :: '"' :: ':' :: '"' ::
        (encodeStringBody prompt.data ++ '"' :: '\x7d' :: ']' :: ['\x7d'])) =
      ('"' :: 'r' :: 'o' :: 'l' :: 'e' :: '"' :: ':' ::
        '"' :: 'u' :: 's' :: 'e' :: 'r' :: '"' :: ',' ::
        '"' :: 'c' :: 'o' :: 'n' :: 't' :: 'e' :: 'n' :: 't' :: '"' :: ':' :: '"' ::
        (encodeStringBody prompt.data ++ '"' :: '\x7d' :: ']' :: ['\x7d'])) from rfl,
    hkey,
    show skipJsonWS (':' :: '"' :: 'u' :: 's' :: 'e' :: 'r' :: '"' :: ',' ::
        '"' :: 'c' :: 'o' :: 'n' :: 't' :: 'e' :: 'n' :: 't' :: '"' :: ':' :: '"' ::
        (encodeStringBody prompt.data ++ '"' :: '\x7d' :: ']' :: ['\x7d'])) =
      (':' :: '"' :: 'u' :: 's' :: 'e' :: 'r' :: '"' :: ',' ::
        '"' :: 'c' :: 'o' :: 'n' :: 't' :: 'e' :: 'n' :: 't' :: '"' :: ':' :: '"' ::
        (encodeStringBody prompt.data ++ '"' :: '\x7d' :: ']' :: ['\x7d'])) from rfl,
    show (':' == ':') = true from rfl, if_true,
    show skipJsonWS ('"' :: 'u' :: 's' :: 'e' :: 'r' :: '"' :: ',' ::
        '"' :: 'c' :: 'o' :: 'n' :: 't' :: 'e' :: 'n' :: 't' :: '"' :: ':' :: '"' ::
        (encodeStringBody prompt.data ++ '"' :: '\x7d' :: ']' :: ['\x7d'])) =
      ('"' :: 'u' :: 's' :: 'e' :: 'r' :: '"' :: ',' ::
        '"' :: 'c' :: 'o' :: 'n' :: 't' :: 'e' :: 'n' :: 't' :: '"' :: ':' :: '"' ::
        (encodeStringBody prompt.data ++ '"' :: '\x7d' :: ']' :: ['\x7d'])) from rfl,
    hval,
    show skipJsonWS (',' :: '"' :: 'c' :: 'o' :: 'n' :: 't' :: 'e' :: 'n' :: 't' :: '"' :: ':' :: '"' ::
        (encodeStringBody prompt.data ++ '"' :: '\x7d' :: ']' :: ['\x7d'])) =
      (',' :: '"' :: 'c' :: 'o' :: 'n' :: 't' :: 'e' :: 'n' :: 't' :: '"' :: ':' :: '"' ::
        (encodeStringBody prompt.data ++ '"' :: '\x7d' :: ']' :: ['\x7d'])) from rfl,
    show (',' == ',') = true from rfl,
    show skipJsonWS ('"' :: 'c' :: 'o' :: 'n' :: 't' :: 'e' :: 'n' :: 't' :: '"' :: ':' :: '"' ::
        (encodeStringBody prompt.data ++ '"' :: '\x7d' :: ']' :: ['\x7d'])) =
      ('"' :: 'c' :: 'o' :: 'n' :: 't' :: 'e' :: 'n' :: 't' :: '"' :: ':' :: '"' ::
        (encodeStringBody prompt.data ++ '"' :: '\x7d' :: ']' :: ['\x7d'])) from rfl,
    hkey2,
    show skipJsonWS (':' :: '"' ::
        (encodeStringBody prompt.data ++ '"' :: '\x7d' :: ']' :: ['\x7d'])) =
      (':' :: '"' :: (encodeStringBody prompt.data ++ '"' :: '\x7d' :: ']' :: ['\x7d'])) from rfl,
    show skipJsonWS ('"' ::
        (encodeStringBody prompt.data ++ '"' :: '\x7d' :: ']' :: ['\x7d'])) =
      ('"' :: (encodeStringBody prompt.data ++ '"' :: '\x7d' :: ']' :: ['\x7d'])) from rfl,
    hval2,
    show skipJsonWS ('\x7d' :: ']' :: ['\x7d']) = '\x7d' :: ']' :: ['\x7d'] from rfl,
    show ('\x7d' == ',') = false from rfl,
    show ('\x7d' == '\x7d') = true from rfl,
    Bool.false_eq_true, if_false]
  rfl

theorem parseValue_msgObj (f : Nat) (prompt : String) :
    parseValue (f + 4) ('\x7b' :: '"' :: 'r' :: 'o' :: 'l' :: 'e' :: '"' :: ':' ::
        '"' :: 'u' :: 's' :: 'e' :: 'r' :: '"' :: ',' ::
        '"' :: 'c' :: 'o' :: 'n' :: 't' :: 'e' :: 'n' :: 't' :: '"' :: ':' :: '"' ::
        (encodeStringBody prompt.data ++ '"' :: '\x7d' :: ']' :: ['\x7d'])) =
      some (Json.obj [("role", Json.str "user"), ("content", Json.str prompt)], ']' :: ['\x7d']) := by
  rw [show (f + 4 : Nat) = (f + 3) + 1 from rfl]
  rw [show parseValue ((f + 3) + 1) ('\x7b' :: '"' :: 'r' :: 'o' :: 'l' :: 'e' :: '"' :: ':' ::
      '"' :: 'u' :: 's' :: 'e' :: 'r' :: '"' :: ',' ::
      '"' :: 'c' :: 'o' :: 'n' :: 't' :: 'e' :: 'n' :: 't' :: '"' :: ':' :: '"' ::
      (encodeStringBody prompt.data ++ '"' :: '\x7d' :: ']' :: ['\x7d'])) =
    (parseMembers (f + 3) ('"' :: 'r' :: 'o' :: 'l' :: 'e' :: '"' :: ':' ::
      '"' :: 'u' :: 's' :: 'e' :: 'r' :: '"' :: ',' ::
      '"' :: 'c' :: 'o' :: 'n' :: 't' :: 'e' :: 'n' :: 't' :: '"' :: ':' :: '"' ::
      (encodeStringBody prompt.data ++ '"' :: '\x7d' :: ']' :: ['\x7d']))).map
        (fun p => (Json.obj p.1, p.2)) from rfl]
  rw [parseMembers_message f prompt]
  rfl

theorem parseElems_msgs (f : Nat) (prompt : String) :
    parseElems (f + 5) ('\x7b' :: '"' :: 'r' :: 'o' :: 'l' :: 'e' :: '"' :: ':' ::
        '"' :: 'u' :: 's' :: 'e' :: 'r' :: '"' :: ',' ::
        '"' :: 'c' :: 'o' :: 'n' :: 't' :: 'e' :: 'n' :: 't' :: '"' :: ':' :: '"' ::
        (encodeStringBody prompt.data ++ '"' :: '\x7d' :: ']' :: ['\x7d'])) =
      some ([Json.obj [("role", Json.str "user"), ("content", Json.str prompt)]], ['\x7d']) := by
  rw [show (f + 5 : Nat) = (f + 4) + 1 from rfl]
  simp only [parseElems,
    show skipJsonWS ('\x7b' :: '"' :: 'r' :: 'o' :: 'l' :: 'e' :: '"' :: ':' ::
        '"' :: 'u' :: 's' :: 'e' :: 'r' :: '"' :: ',' ::
        '"' :: 'c' :: 'o' :: 'n' :: 't' :: 'e' :: 'n' :: 't' :: '"' :: ':' :: '"' ::
        (encodeStringBody prompt.data ++ '"' :: '\x7d' :: ']' :: ['\x7d'])) =
      ('\x7b' :: '"' :: 'r' :: 'o' :: 'l' :: 'e' :: '"' :: ':' ::
        '"' :: 'u' :: 's' :: 'e' :: 'r' :: '"' :: ',' ::
        '"' :: 'c' :: 'o' :: 'n' :: 't' :: 'e' :: 'n' :: 't' :: '"' :: ':' :: '"' ::
        (encodeStringBody prompt.data ++ '"' :: '\x7d' :: ']' :: ['\x7d'])) from rfl,
    parseValue_msgObj f prompt,
    show skipJsonWS (']' :: ['\x7d']) = ']' :: ['\x7d'] from rfl,
    show (']' == ',') = false from rfl,
    show (']' == ']') = true from rfl,
    Bool.false_eq_true, if_false, if_true]

theorem parseValue_msgsArr (f : Nat) (prompt : String) :
    parseValue (f + 6) ('[' :: '\x7b' :: '"' :: 'r' :: 'o' :: 'l' :: 'e' :: '"' :: ':' ::
        '"' :: 'u' :: 's' :: 'e' :: 'r' :: '"' :: ',' ::
        '"' :: 'c' :: 'o' :: 'n' :: 't' :: 'e' :: 'n' :: 't' :: '"' :: ':' :: '"' ::
        (encodeStringBody prompt.data ++ '"' :: '\x7d' :: ']' :: ['\x7d'])) =
      some (Json.arr [Json.obj [("role", Json.str "user"), ("content", Json.str prompt)]], ['\x7d']) := by
  rw [show (f + 6 : Nat) = (f + 5) + 1 from rfl]
  rw [show parseValue ((f + 5) + 1) ('[' :: '\x7b' :: '"' :: 'r' :: 'o' :: 'l' :: 'e' :: '"' :: ':' ::
      '"' :: 'u' :: 's' :: 'e' :: 'r' :: '"' :: ',' ::
      '"' :: 'c' :: 'o' :: 'n' :: 't' :: 'e' :: 'n' :: 't' :: '"' :: ':' :: '"' ::
      (encodeStringBody prompt.data ++ '"' :: '\x7d' :: ']' :: ['\x7d'])) =
    (parseElems (f + 5) ('\x7b' :: '"' :: 'r' :: 'o' :: 'l' :: 'e' :: '"' :: ':' ::
      '"' :: 'u' :: 's' :: 'e' :: 'r' :: '"' :: ',' ::
      '"' :: 'c' :: 'o' :: 'n' :: 't' :: 'e' :: 'n' :: 't' :: '"' :: ':' :: '"' ::
      (encodeStringBody prompt.data ++ '"' :: '\x7d' :: ']' :: ['\x7d']))).map
        (fun p => (Json.arr p.1, p.2)) from rfl]
  rw [parseElems_msgs f prompt]
  rfl

theorem parseMembers_msgs (f : Nat) (prompt : String) :
    parseMembers (f + 7) ('"' :: 'm' :: 'e' :: 's' :: 's' :: 'a' :: 'g' :: 'e' :: 's' :: '"' :: ':' ::
        '[' :: '\x7b' :: '"' :: 'r' :: 'o' :: 'l' :: 'e' :: '"' :: ':' ::
        '"' :: 'u' :: 's' :: 'e' :: 'r' :: '"' :: ',' ::
        '"' :: 'c' :: 'o' :: 'n' :: 't' :: 'e' :: 'n' :: 't' :: '"' :: ':' :: '"' ::
        (encodeStringBody prompt.data ++ '"' :: '\x7d' :: ']' :: ['\x7d'])) =
      some ([("messages", Json.arr [Json.obj [("role", Json.str "user"), ("content", Json.str prompt)]])], []) := by
  have hkey : parseStringLit ('"' :: 'm' :: 'e' :: 's' :: 's' :: 'a' :: 'g' :: 'e' :: 's' :: '"' :: ':' ::
      '[' :: '\x7b' :: '"' :: 'r' :: 'o' :: 'l' :: 'e' :: '"' :: ':' ::
      '"' :: 'u' :: 's' :: 'e' :: 'r' :: '"' :: ',' ::
      '"' :: 'c' :: 'o' :: 'n' :: 't' :: 'e' :: 'n' :: 't' :: '"' :: ':' :: '"' ::
      (encodeStringBody prompt.data ++ '"' :: '\x7d' :: ']' :: ['\x7d'])) =
      some ("messages", ':' :: '[' :: '\x7b' :: '"' :: 'r' :: 'o' :: 'l' :: 'e' :: '"' :: ':' ::
        '"' :: 'u' :: 's' :: 'e' :: 'r' :: '"' :: ',' ::
        '"' :: 'c' :: 'o' :: 'n' :: 't' :: 'e' :: 'n' :: 't' :: '"' :: ':' :: '"' ::
        (encodeStringBody prompt.data ++ '"' :: '\x7d' :: ']' :: ['\x7d'])) := by
    have h := parseStringLit_plainPrefix ['m', 'e', 's', 's', 'a', 'g', 'e', 's']
      (':' :: '[' :: '\x7b' :: '"' :: 'r' :: 'o' :: 'l' :: 'e' :: '"' :: ':' ::
        '"' :: 'u' :: 's' :: 'e' :: 'r' :: '"' :: ',' ::
        '"' :: 'c' :: 'o' :: 'n' :: 't' :: 'e' :: 'n' :: 't' :: '"' :: ':' :: '"' ::
        (encodeStringBody prompt.data ++ '"' :: '\x7d' :: ']' :: ['\x7d'])) (by decide)
    simpa using h
  rw [show (f + 7 : Nat) = (f + 6) + 1 from rfl]
  simp only [parseMembers,
    show skipJsonWS ('"' :: 'm' :: 'e' :: 's' :: 's' :: 'a' :: 'g' :: 'e' :: 's' :: '"' :: ':' ::
        '[' :: '\x7b' :: '"' :: 'r' :: 'o' :: 'l' :: 'e' :: '"' :: ':' ::
        '"' :: 'u' :: 's' :: 'e' :: 'r' :: '"' :: ',' ::
        '"' :: 'c' :: 'o' :: 'n' :: 't' :: 'e' :: 'n' :: 't' :: '"' :: ':' :: '"' ::
        (encodeStringBody prompt.data ++ '"' :: '\x7d' :: ']' :: ['\x7d'])) =
      ('"' :: 'm' :: 'e' :: 's' :: 's' :: 'a' :: 'g' :: 'e' :: 's' :: '"' :: ':' ::
        '[' :: '\x7b' :: '"' :: 'r' :: 'o' :: 'l' :: 'e' :: '"' :: ':' ::
        '"' :: 'u' :: 's' :: 'e' :: 'r' :: '"' :: ',' ::
        '"' :: 'c' :: 'o' :: 'n' :: 't' :: 'e' :: 'n' :: 't' :: '"' :: ':' :: '"' ::
        (encodeStringBody prompt.data ++ '"' :: '\x7d' :: ']' :: ['\x7d'])) from rfl,
    hkey,
    show skipJsonWS (':' :: '[' :: '\x7b' :: '"' :: 'r' :: 'o' :: 'l' :: 'e' :: '"' :: ':' ::
        '"' :: 'u' :: 's' :: 'e' :: 'r' :: '"' :: ',' ::
        '"' :: 'c' :: 'o' :: 'n' :: 't' :: 'e' :: 'n' :: 't' :: '"' :: ':' :: '"' ::
        (encodeStringBody prompt.data ++ '"' :: '\x7d' :: ']' :: ['\x7d'])) =
      (':' :: '[' :: '\x7b' :: '"' :: 'r' :: 'o' :: 'l' :: 'e' :: '"' :: ':' ::
        '"' :: 'u' :: 's' :: 'e' :: 'r' :: '"' :: ',' ::
        '"' :: 'c' :: 'o' :: 'n' :: 't' :: 'e' :: 'n' :: 't' :: '"' :: ':' :: '"' ::
        (encodeStringBody prompt.data ++ '"' :: '\x7d' :: ']' :: ['\x7d'])) from rfl,
    show (':' == ':') = true from rfl, if_true,
    show skipJsonWS ('[' :: '\x7b' :: '"' :: 'r' :: 'o' :: 'l' :: 'e' :: '"' :: ':' ::
        '"' :: 'u' :: 's' :: 'e' :: 'r' :: '"' :: ',' ::
        '"' :: 'c' :: 'o' :: 'n' :: 't' :: 'e' :: 'n' :: 't' :: '"' :: ':' :: '"' ::
        (encodeStringBody prompt.data ++ '"' :: '\x7d' :: ']' :: ['\x7d'])) =
      ('[' :: '\x7b' :: '"' :: 'r' :: 'o' :: 'l' :: 'e' :: '"' :: ':' ::
        '"' :: 'u' :: 's' :: 'e' :: 'r' :: '"' :: ',' ::
        '"' :: 'c' :: 'o' :: 'n' :: 't' :: 'e' :: 'n' :: 't' :: '"' :: ':' :: '"' ::
        (encodeStringBody prompt.data ++ '"' :: '\x7d' :: ']' :: ['\x7d'])) from rfl,
    parseValue_msgsArr f prompt,
    show skipJsonWS ['\x7d'] = ['\x7d'] from rfl,
    show ('\x7d' == ',') = false from rfl,
    show ('\x7d' == '\x7d') = true from rfl,
    Bool.false_eq_true, if_false]

theorem parseMembers_succ (F : Nat) (cs : List Char) :
    parseMembers (F + 1) cs =
      (match parseStringLit (skipJsonWS cs) with
       | none => none
       | some (k, r) =>
         match skipJsonWS r with
         | [] => none
         | c :: r2 =>
           if c == ':' then
             match parseValue F (skipJsonWS r2) with
             | none => none
             | some (v, r3) =>
               match skipJsonWS r3 with
               | [] => none
               | d :: r4 =>
                 if d == ',' then (parseMembers F r4).map (fun p => ((k, v) :: p.1, p.2))
                 else if d == '\x7d' then some ([(k, v)], r4)
                 else none
           else none) := rfl

theorem parseMembers_maxtok (f : Nat) (prompt : String) :
    parseMembers (f + 8) ('"' :: 'm' :: 'a' :: 'x' :: '_' :: 't' :: 'o' :: 'k' :: 'e' :: 'n' :: 's' :: '"' :: ':' ::
        '2' :: '0' :: '0' :: '0' :: ',' ::
        '"' :: 'm' :: 'e' :: 's' :: 's' :: 'a' :: 'g' :: 'e' :: 's' :: '"' :: ':' ::
        '[' :: '\x7b' :: '"' :: 'r' :: 'o' :: 'l' :: 'e' :: '"' :: ':' ::
        '"' :: 'u' :: 's' :: 'e' :: 'r' :: '"' :: ',' ::
        '"' :: 'c' :: 'o' :: 'n' :: 't' :: 'e' :: 'n' :: 't' :: '"' :: ':' :: '"' ::
        (encodeStringBody prompt.data ++ '"' :: '\x7d' :: ']' :: ['\x7d'])) =
      some ([("max_tokens", Json.num 2000),
        ("messages", Json.arr [Json.obj [("role", Json.str "user"), ("content", Json.str prompt)]])], []) := by
  have hkey : parseStringLit ('"' :: 'm' :: 'a' :: 'x' :: '_' :: 't' :: 'o' :: 'k' :: 'e' :: 'n' :: 's' :: '"' :: ':' ::
      '2' :: '0' :: '0' :: '0' :: ',' ::
      '"' :: 'm' :: 'e' :: 's' :: 's' :: 'a' :: 'g' :: 'e' :: 's' :: '"' :: ':' ::
      '[' :: '\x7b' :: '"' :: 'r' :: 'o' :: 'l' :: 'e' :: '"' :: ':' ::
      '"' :: 'u' :: 's' :: 'e' :: 'r' :: '"' :: ',' ::
      '"' :: 'c' :: 'o' :: 'n' :: 't' :: 'e' :: 'n' :: 't' :: '"' :: ':' :: '"' ::
      (encodeStringBody prompt.data ++ '"' :: '\x7d' :: ']' :: ['\x7d'])) =
      some ("max_tokens", ':' :: '2' :: '0' :: '0' :: '0' :: ',' ::
        '"' :: 'm' :: 'e' :: 's' :: 's' :: 'a' :: 'g' :: 'e' :: 's' :: '"' :: ':' ::
        '[' :: '\x7b' :: '"' :: 'r' :: 'o' :: 'l' :: 'e' :: '"' :: ':' ::
        '"' :: 'u' :: 's' :: 'e' :: 'r' :: '"' :: ',' ::
        '"' :: 'c' :: 'o' :: 'n' :: 't' :: 'e' :: 'n' :: 't' :: '"' :: ':' :: '"' ::
        (encodeStringBody prompt.data ++ '"' :: '\x7d' :: ']' :: ['\x7d'])) := by
    have h := parseStringLit_plainPrefix ['m', 'a', 'x', '_', 't', 'o', 'k', 'e', 'n', 's']
      (':' :: '2' :: '0' :: '0' :: '0' :: ',' ::
        '"' :: 'm' :: 'e' :: 's' :: 's' :: 'a' :: 'g' :: 'e' :: 's' :: '"' :: ':' ::
        '[' :: '\x7b' :: '"' :: 'r' :: 'o' :: 'l' :: 'e' :: '"' :: ':' ::
        '"' :: 'u' :: 's' :: 'e' :: 'r' :: '"' :: ',' ::
        '"' :: 'c' :: 'o' :: 'n' :: 't' :: 'e' :: 'n' :: 't' :: '"' :: ':' :: '"' ::
        (encodeStringBody prompt.data ++ '"' :: '\x7d' :: ']' :: ['\x7d'])) (by decide)
    simpa using h
  have hval : parseValue (f + 7) ('2' :: '0' :: '0' :: '0' :: ',' ::
      '"' :: 'm' :: 'e' :: 's' :: 's' :: 'a' :: 'g' :: 'e' :: 's' :: '"' :: ':' ::
      '[' :: '\x7b' :: '"' :: 'r' :: 'o' :: 'l' :: 'e' :: '"' :: ':' ::
      '"' :: 'u' :: 's' :: 'e' :: 'r' :: '"' :: ',' ::
      '"' :: 'c' :: 'o' :: 'n' :: 't' :: 'e' :: 'n' :: 't' :: '"' :: ':' :: '"' ::
      (encodeStringBody prompt.data ++ '"' :: '\x7d' :: ']' :: ['\x7d'])) =
      some (Json.num 2000, ',' ::
        '"' :: 'm' :: 'e' :: 's' :: 's' :: 'a' :: 'g' :: 'e' :: 's' :: '"' :: ':' ::
        '[' :: '\x7b' :: '"' :: 'r' :: 'o' :: 'l' :: 'e' :: '"' :: ':' ::
        '"' :: 'u' :: 's' :: 'e' :: 'r' :: '"' :: ',' ::
        '"' :: 'c' :: 'o' :: 'n' :: 't' :: 'e' :: 'n' :: 't' :: '"' :: ':' :: '"' ::
        (encodeStringBody prompt.data ++ '"' :: '\x7d' :: ']' :: ['\x7d'])) := by
    rw [show (f + 7 : Nat) = (f + 6) + 1 from rfl]
    rfl
  rw [show (f + 8 : Nat) = (f + 7) + 1 from rfl]
  rw [parseMembers_succ]
  simp only [
    show skipJsonWS ('"' :: 'm' :: 'a' :: 'x' :: '_' :: 't' :: 'o' :: 'k' :: 'e' :: 'n' :: 's' :: '"' :: ':' ::
        '2' :: '0' :: '0' :: '0' :: ',' ::
        '"' :: 'm' :: 'e' :: 's' :: 's' :: 'a' :: 'g' :: 'e' :: 's' :: '"' :: ':' ::
        '[' :: '\x7b' :: '"' :: 'r' :: 'o' :: 'l' :: 'e' :: '"' :: ':' ::
        '"' :: 'u' :: 's' :: 'e' :: 'r' :: '"' :: ',' ::
        '"' :: 'c' :: 'o' :: 'n' :: 't' :: 'e' :: 'n' :: 't' :: '"' :: ':' :: '"' ::
        (encodeStringBody prompt.data ++ '"' :: '\x7d' :: ']' :: ['\x7d'])) =
      ('"' :: 'm' :: 'a' :: 'x' :: '_' :: 't' :: 'o' :: 'k' :: 'e' :: 'n' :: 's' :: '"' :: ':' ::
        '2' :: '0' :: '0' :: '0' :: ',' ::
        '"' :: 'm' :: 'e' :: 's' :: 's' :: 'a' :: 'g' :: 'e' :: 's' :: '"' :: ':' ::
        '[' :: '\x7b' :: '"' :: 'r' :: 'o' :: 'l' :: 'e' :: '"' :: ':' ::
        '"' :: 'u' :: 's' :: 'e' :: 'r' :: '"' :: ',' ::
        '"' :: 'c' :: 'o' :: 'n' :: 't' :: 'e' :: 'n' :: 't' :: '"' :: ':' :: '"' ::
        (encodeStringBody prompt.data ++ '"' :: '\x7d' :: ']' :: ['\x7d'])) from rfl,
    hkey,
    show skipJsonWS (':' :: '2' :: '0' :: '0' :: '0' :: ',' ::
        '"' :: 'm' :: 'e' :: 's' :: 's' :: 'a' :: 'g' :: 'e' :: 's' :: '"' :: ':' ::
        '[' :: '\x7b' :: '"' :: 'r' :: 'o' :: 'l' :: 'e' :: '"' :: ':' ::
        '"' :: 'u' :: 's' :: 'e' :: 'r' :: '"' :: ',' ::
        '"' :: 'c' :: 'o' :: 'n' :: 't' :: 'e' :: 'n' :: 't' :: '"' :: ':' :: '"' ::
        (encodeStringBody prompt.data ++ '"' :: '\x7d' :: ']' :: ['\x7d'])) =
      (':' :: '2' :: '0' :: '0' :: '0' :: ',' ::
        '"' :: 'm' :: 'e' :: 's' :: 's' :: 'a' :: 'g' :: 'e' :: 's' :: '"' :: ':' ::
        '[' :: '\x7b' :: '"' :: 'r' :: 'o' :: 'l' :: 'e' :: '"' :: ':' ::
        '"' :: 'u' :: 's' :: 'e' :: 'r' :: '"' :: ',' ::
        '"' :: 'c' :: 'o' :: 'n' :: 't' :: 'e' :: 'n' :: 't' :: '"' :: ':' :: '"' ::
        (encodeStringBody prompt.data ++ '"' :: '\x7d' :: ']' :: ['\x7d'])) from rfl,
    show (':' == ':') = true from rfl, if_true,
    show skipJsonWS ('2' :: '0' :: '0' :: '0' :: ',' ::
        '"' :: 'm' :: 'e' :: 's' :: 's' :: 'a' :: 'g' :: 'e' :: 's' :: '"' :: ':' ::
        '[' :: '\x7b' :: '"' :: 'r' :: 'o' :: 'l' :: 'e' :: '"' :: ':' ::
        '"' :: 'u' :: 's' :: 'e' :: 'r' :: '"' :: ',' ::
        '"' :: 'c' :: 'o' :: 'n' :: 't' :: 'e' :: 'n' :: 't' :: '"' :: ':' :: '"' ::
        (encodeStringBody prompt.data ++ '"' :: '\x7d' :: ']' :: ['\x7d'])) =
      ('2' :: '0' :: '0' :: '0' :: ',' ::
        '"' :: 'm' :: 'e' :: 's' :: 's' :: 'a' :: 'g' :: 'e' :: 's' :: '"' :: ':' ::
        '[' :: '\x7b' :: '"' :: 'r' :: 'o' :: 'l' :: 'e' :: '"' :: ':' ::
        '"' :: 'u' :: 's' :: 'e' :: 'r' :: '"' :: ',' ::
        '"' :: 'c' :: 'o' :: 'n' :: 't' :: 'e' :: 'n' :: 't' :: '"' :: ':' :: '"' ::
        (encodeStringBody prompt.data ++ '"' :: '\x7d' :: ']' :: ['\x7d'])) from rfl,
    hval,
    show skipJsonWS (',' ::
        '"' :: 'm' :: 'e' :: 's' :: 's' :: 'a' :: 'g' :: 'e' :: 's' :: '"' :: ':' ::
        '[' :: '\x7b' :: '"' :: 'r' :: 'o' :: 'l' :: 'e' :: '"' :: ':' ::
        '"' :: 'u' :: 's' :: 'e' :: 'r' :: '"' :: ',' ::
        '"' :: 'c' :: 'o' :: 'n' :: 't' :: 'e' :: 'n' :: 't' :: '"' :: ':' :: '"' ::
        (encodeStringBody prompt.data ++ '"' :: '\x7d' :: ']' :: ['\x7d'])) =
      (',' ::
        '"' :: 'm' :: 'e' :: 's' :: 's' :: 'a' :: 'g' :: 'e' :: 's' :: '"' :: ':' ::
        '[' :: '\x7b' :: '"' :: 'r' :: 'o' :: 'l' :: 'e' :: '"' :: ':' ::
        '"' :: 'u' :: 's' :: 'e' :: 'r' :: '"' :: ',' ::
        '"' :: 'c' :: 'o' :: 'n' :: 't' :: 'e' :: 'n' :: 't' :: '"' :: ':' :: '"' ::
        (encodeStringBody prompt.data ++ '"' :: '\x7d' :: ']' :: ['\x7d'])) from rfl,
    show (',' == ',') = true from rfl,
    parseMembers_msgs f prompt]
  rfl

theorem parseMembers_model (f : Nat) (prompt : String) :
    parseMembers (f + 9) ('"' :: 'm' :: 'o' :: 'd' :: 'e' :: 'l' :: '"' :: ':' :: '"' :: 'c' :: 'l' :: 'a' :: 'u' :: 'd' :: 'e' :: '-' :: 's' :: 'o' :: 'n' :: 'n' :: 'e' :: 't' :: '-' :: '4' :: '-' :: '2' :: '0' :: '2' :: '5' :: '0' :: '5' :: '1' :: '4' :: '"' :: ',' :: '"' :: 'm' :: 'a' :: 'x' :: '_' :: 't' :: 'o' :: 'k' :: 'e' :: 'n' :: 's' :: '"' :: ':' :: '2' :: '0' :: '0' :: '0' :: ',' :: '"' :: 'm' :: 'e' :: 's' :: 's' :: 'a' :: 'g' :: 'e' :: 's' :: '"' :: ':' :: '[' :: '\x7b' :: '"' :: 'r' :: 'o' :: 'l' :: 'e' :: '"' :: ':' :: '"' :: 'u' :: 's' :: 'e' :: 'r' :: '"' :: ',' :: '"' :: 'c' :: 'o' :: 'n' :: 't' :: 'e' :: 'n' :: 't' :: '"' :: ':' :: '"' :: (encodeStringBody prompt.data ++ '"' :: '\x7d' :: ']' :: ['\x7d'])) =
      some ([("model", Json.str "claude-sonnet-4-20250514"), ("max_tokens", Json.num 2000),
        ("messages", Json.arr [Json.obj [("role", Json.str "user"), ("content", Json.str prompt)]])], []) := by
  have hkey : parseStringLit ('"' :: 'm' :: 'o' :: 'd' :: 'e' :: 'l' :: '"' :: ':' :: '"' :: 'c' :: 'l' :: 'a' :: 'u' :: 'd' :: 'e' :: '-' :: 's' :: 'o' :: 'n' :: 'n' :: 'e' :: 't' :: '-' :: '4' :: '-' :: '2' :: '0' :: '2' :: '5' :: '0' :: '5' :: '1' :: '4' :: '"' :: ',' :: '"' :: 'm' :: 'a' :: 'x' :: '_' :: 't' :: 'o' :: 'k' :: 'e' :: 'n' :: 's' :: '"' :: ':' :: '2' :: '0' :: '0' :: '0' :: ',' :: '"' :: 'm' :: 'e' :: 's' :: 's' :: 'a' :: 'g' :: 'e' :: 's' :: '"' :: ':' :: '[' :: '\x7b' :: '"' :: 'r' :: 'o' :: 'l' :: 'e' :: '"' :: ':' :: '"' :: 'u' :: 's' :: 'e' :: 'r' :: '"' :: ',' :: '"' :: 'c' :: 'o' :: 'n' :: 't' :: 'e' :: 'n' :: 't' :: '"' :: ':' :: '"' :: (encodeStringBody prompt.data ++ '"' :: '\x7d' :: ']' :: ['\x7d'])) =
      some ("model", ':' :: '"' :: 'c' :: 'l' :: 'a' :: 'u' :: 'd' :: 'e' :: '-' :: 's' :: 'o' :: 'n' :: 'n' :: 'e' :: 't' :: '-' :: '4' :: '-' :: '2' :: '0' :: '2' :: '5' :: '0' :: '5' :: '1' :: '4' :: '"' :: ',' :: '"' :: 'm' :: 'a' :: 'x' :: '_' :: 't' :: 'o' :: 'k' :: 'e' :: 'n' :: 's' :: '"' :: ':' :: '2' :: '0' :: '0' :: '0' :: ',' :: '"' :: 'm' :: 'e' :: 's' :: 's' :: 'a' :: 'g' :: 'e' :: 's' :: '"' :: ':' :: '[' :: '\x7b' :: '"' :: 'r' :: 'o' :: 'l' :: 'e' :: '"' :: ':' :: '"' :: 'u' :: 's' :: 'e' :: 'r' :: '"' :: ',' :: '"' :: 'c' :: 'o' :: 'n' :: 't' :: 'e' :: 'n' :: 't' :: '"' :: ':' :: '"' :: (encodeStringBody prompt.data ++ '"' :: '\x7d' :: ']' :: ['\x7d'])) := by
    have h := parseStringLit_plainPrefix ['m', 'o', 'd', 'e', 'l']
      (':' :: '"' :: 'c' :: 'l' :: 'a' :: 'u' :: 'd' :: 'e' :: '-' :: 's' :: 'o' :: 'n' :: 'n' :: 'e' :: 't' :: '-' :: '4' :: '-' :: '2' :: '0' :: '2' :: '5' :: '0' :: '5' :: '1' :: '4' :: '"' :: ',' :: '"' :: 'm' :: 'a' :: 'x' :: '_' :: 't' :: 'o' :: 'k' :: 'e' :: 'n' :: 's' :: '"' :: ':' :: '2' :: '0' :: '0' :: '0' :: ',' :: '"' :: 'm' :: 'e' :: 's' :: 's' :: 'a' :: 'g' :: 'e' :: 's' :: '"' :: ':' :: '[' :: '\x7b' :: '"' :: 'r' :: 'o' :: 'l' :: 'e' :: '"' :: ':' :: '"' :: 'u' :: 's' :: 'e' :: 'r' :: '"' :: ',' :: '"' :: 'c' :: 'o' :: 'n' :: 't' :: 'e' :: 'n' :: 't' :: '"' :: ':' :: '"' :: (encodeStringBody prompt.data ++ '"' :: '\x7d' :: ']' :: ['\x7d'])) (by decide)
    simpa using h
  have hval : parseValue (f + 8) ('"' :: 'c' :: 'l' :: 'a' :: 'u' :: 'd' :: 'e' :: '-' :: 's' :: 'o' :: 'n' :: 'n' :: 'e' :: 't' :: '-' :: '4' :: '-' :: '2' :: '0' :: '2' :: '5' :: '0' :: '5' :: '1' :: '4' :: '"' :: ',' :: '"' :: 'm' :: 'a' :: 'x' :: '_' :: 't' :: 'o' :: 'k' :: 'e' :: 'n' :: 's' :: '"' :: ':' :: '2' :: '0' :: '0' :: '0' :: ',' :: '"' :: 'm' :: 'e' :: 's' :: 's' :: 'a' :: 'g' :: 'e' :: 's' :: '"' :: ':' :: '[' :: '\x7b' :: '"' :: 'r' :: 'o' :: 'l' :: 'e' :: '"' :: ':' :: '"' :: 'u' :: 's' :: 'e' :: 'r' :: '"' :: ',' :: '"' :: 'c' :: 'o' :: 'n' :: 't' :: 'e' :: 'n' :: 't' :: '"' :: ':' :: '"' :: (encodeStringBody prompt.data ++ '"' :: '\x7d' :: ']' :: ['\x7d'])) =
      some (Json.str "claude-sonnet-4-20250514", ',' :: '"' :: 'm' :: 'a' :: 'x' :: '_' :: 't' :: 'o' :: 'k' :: 'e' :: 'n' :: 's' :: '"' :: ':' :: '2' :: '0' :: '0' :: '0' :: ',' :: '"' :: 'm' :: 'e' :: 's' :: 's' :: 'a' :: 'g' :: 'e' :: 's' :: '"' :: ':' :: '[' :: '\x7b' :: '"' :: 'r' :: 'o' :: 'l' :: 'e' :: '"' :: ':' :: '"' :: 'u' :: 's' :: 'e' :: 'r' :: '"' :: ',' :: '"' :: 'c' :: 'o' :: 'n' :: 't' :: 'e' :: 'n' :: 't' :: '"' :: ':' :: '"' :: (encodeStringBody prompt.data ++ '"' :: '\x7d' :: ']' :: ['\x7d'])) := by
    rw [show (f + 8 : Nat) = (f + 7) + 1 from rfl]
    have h := parseValue_encodedStr (f + 7) "claude-sonnet-4-20250514" (',' :: '"' :: 'm' :: 'a' :: 'x' :: '_' :: 't' :: 'o' :: 'k' :: 'e' :: 'n' :: 's' :: '"' :: ':' :: '2' :: '0' :: '0' :: '0' :: ',' :: '"' :: 'm' :: 'e' :: 's' :: 's' :: 'a' :: 'g' :: 'e' :: 's' :: '"' :: ':' :: '[' :: '\x7b' :: '"' :: 'r' :: 'o' :: 'l' :: 'e' :: '"' :: ':' :: '"' :: 'u' :: 's' :: 'e' :: 'r' :: '"' :: ',' :: '"' :: 'c' :: 'o' :: 'n' :: 't' :: 'e' :: 'n' :: 't' :: '"' :: ':' :: '"' :: (encodeStringBody prompt.data ++ '"' :: '\x7d' :: ']' :: ['\x7d']))
    rw [show encodeStringBody "claude-sonnet-4-20250514".data = ['c', 'l', 'a', 'u', 'd', 'e', '-', 's', 'o', 'n', 'n', 'e', 't', '-', '4', '-', '2', '0', '2', '5', '0', '5', '1', '4'] from rfl] at h
    simpa using h
  rw [show (f + 9 : Nat) = (f + 8) + 1 from rfl]
  rw [parseMembers_succ]
  simp only [
    show skipJsonWS ('"' :: 'm' :: 'o' :: 'd' :: 'e' :: 'l' :: '"' :: ':' :: '"' :: 'c' :: 'l' :: 'a' :: 'u' :: 'd' :: 'e' :: '-' :: 's' :: 'o' :: 'n' :: 'n' :: 'e' :: 't' :: '-' :: '4' :: '-' :: '2' :: '0' :: '2' :: '5' :: '0' :: '5' :: '1' :: '4' :: '"' :: ',' :: '"' :: 'm' :: 'a' :: 'x' :: '_' :: 't' :: 'o' :: 'k' :: 'e' :: 'n' :: 's' :: '"' :: ':' :: '2' :: '0' :: '0' :: '0' :: ',' :: '"' :: 'm' :: 'e' :: 's' :: 's' :: 'a' :: 'g' :: 'e' :: 's' :: '"' :: ':' :: '[' :: '\x7b' :: '"' :: 'r' :: 'o' :: 'l' :: 'e' :: '"' :: ':' :: '"' :: 'u' :: 's' :: 'e' :: 'r' :: '"' :: ',' :: '"' :: 'c' :: 'o' :: 'n' :: 't' :: 'e' :: 'n' :: 't' :: '"' :: ':' :: '"' :: (encodeStringBody prompt.data ++ '"' :: '\x7d' :: ']' :: ['\x7d'])) = ('"' :: 'm' :: 'o' :: 'd' :: 'e' :: 'l' :: '"' :: ':' :: '"' :: 'c' :: 'l' :: 'a' :: 'u' :: 'd' :: 'e' :: '-' :: 's' :: 'o' :: 'n' :: 'n' :: 'e' :: 't' :: '-' :: '4' :: '-' :: '2' :: '0' :: '2' :: '5' :: '0' :: '5' :: '1' :: '4' :: '"' :: ',' :: '"' :: 'm' :: 'a' :: 'x' :: '_' :: 't' :: 'o' :: 'k' :: 'e' :: 'n' :: 's' :: '"' :: ':' :: '2' :: '0' :: '0' :: '0' :: ',' :: '"' :: 'm' :: 'e' :: 's' :: 's' :: 'a' :: 'g' :: 'e' :: 's' :: '"' :: ':' :: '[' :: '\x7b' :: '"' :: 'r' :: 'o' :: 'l' :: 'e' :: '"' :: ':' :: '"' :: 'u' :: 's' :: 'e' :: 'r' :: '"' :: ',' :: '"' :: 'c' :: 'o' :: 'n' :: 't' :: 'e' :: 'n' :: 't' :: '"' :: ':' :: '"' :: (encodeStringBody prompt.data ++ '"' :: '\x7d' :: ']' :: ['\x7d'])) from rfl,
    hkey,
    show skipJsonWS (':' :: '"' :: 'c' :: 'l' :: 'a' :: 'u' :: 'd' :: 'e' :: '-' :: 's' :: 'o' :: 'n' :: 'n' :: 'e' :: 't' :: '-' :: '4' :: '-' :: '2' :: '0' :: '2' :: '5' :: '0' :: '5' :: '1' :: '4' :: '"' :: ',' :: '"' :: 'm' :: 'a' :: 'x' :: '_' :: 't' :: 'o' :: 'k' :: 'e' :: 'n' :: 's' :: '"' :: ':' :: '2' :: '0' :: '0' :: '0' :: ',' :: '"' :: 'm' :: 'e' :: 's' :: 's' :: 'a' :: 'g' :: 'e' :: 's' :: '"' :: ':' :: '[' :: '\x7b' :: '"' :: 'r' :: 'o' :: 'l' :: 'e' :: '"' :: ':' :: '"' :: 'u' :: 's' :: 'e' :: 'r' :: '"' :: ',' :: '"' :: 'c' :: 'o' :: 'n' :: 't' :: 'e' :: 'n' :: 't' :: '"' :: ':' :: '"' :: (encodeStringBody prompt.data ++ '"' :: '\x7d' :: ']' :: ['\x7d'])) = (':' :: '"' :: 'c' :: 'l' :: 'a' :: 'u' :: 'd' :: 'e' :: '-' :: 's' :: 'o' :: 'n' :: 'n' :: 'e' :: 't' :: '-' :: '4' :: '-' :: '2' :: '0' :: '2' :: '5' :: '0' :: '5' :: '1' :: '4' :: '"' :: ',' :: '"' :: 'm' :: 'a' :: 'x' :: '_' :: 't' :: 'o' :: 'k' :: 'e' :: 'n' :: 's' :: '"' :: ':' :: '2' :: '0' :: '0' :: '0' :: ',' :: '"' :: 'm' :: 'e' :: 's' :: 's' :: 'a' :: 'g' :: 'e' :: 's' :: '"' :: ':' :: '[' :: '\x7b' :: '"' :: 'r' :: 'o' :: 'l' :: 'e' :: '"' :: ':' :: '"' :: 'u' :: 's' :: 'e' :: 'r' :: '"' :: ',' :: '"' :: 'c' :: 'o' :: 'n' :: 't' :: 'e' :: 'n' :: 't' :: '"' :: ':' :: '"' :: (encodeStringBody prompt.data ++ '"' :: '\x7d' :: ']' :: ['\x7d'])) from rfl,
    show (':' == ':') = true from rfl, if_true,
    show skipJsonWS ('"' :: 'c' :: 'l' :: 'a' :: 'u' :: 'd' :: 'e' :: '-' :: 's' :: 'o' :: 'n' :: 'n' :: 'e' :: 't' :: '-' :: '4' :: '-' :: '2' :: '0' :: '2' :: '5' :: '0' :: '5' :: '1' :: '4' :: '"' :: ',' :: '"' :: 'm' :: 'a' :: 'x' :: '_' :: 't' :: 'o' :: 'k' :: 'e' :: 'n' :: 's' :: '"' :: ':' :: '2' :: '0' :: '0' :: '0' :: ',' :: '"' :: 'm' :: 'e' :: 's' :: 's' :: 'a' :: 'g' :: 'e' :: 's' :: '"' :: ':' :: '[' :: '\x7b' :: '"' :: 'r' :: 'o' :: 'l' :: 'e' :: '"' :: ':' :: '"' :: 'u' :: 's' :: 'e' :: 'r' :: '"' :: ',' :: '"' :: 'c' :: 'o' :: 'n' :: 't' :: 'e' :: 'n' :: 't' :: '"' :: ':' :: '"' :: (encodeStringBody prompt.data ++ '"' :: '\x7d' :: ']' :: ['\x7d'])) = ('"' :: 'c' :: 'l' :: 'a' :: 'u' :: 'd' :: 'e' :: '-' :: 's' :: 'o' :: 'n' :: 'n' :: 'e' :: 't' :: '-' :: '4' :: '-' :: '2' :: '0' :: '2' :: '5' :: '0' :: '5' :: '1' :: '4' :: '"' :: ',' :: '"' :: 'm' :: 'a' :: 'x' :: '_' :: 't' :: 'o' :: 'k' :: 'e' :: 'n' :: 's' :: '"' :: ':' :: '2' :: '0' :: '0' :: '0' :: ',' :: '"' :: 'm' :: 'e' :: 's' :: 's' :: 'a' :: 'g' :: 'e' :: 's' :: '"' :: ':' :: '[' :: '\x7b' :: '"' :: 'r' :: 'o' :: 'l' :: 'e' :: '"' :: ':' :: '"' :: 'u' :: 's' :: 'e' :: 'r' :: '"' :: ',' :: '"' :: 'c' :: 'o' :: 'n' :: 't' :: 'e' :: 'n' :: 't' :: '"' :: ':' :: '"' :: (encodeStringBody prompt.data ++ '"' :: '\x7d' :: ']' :: ['\x7d'])) from rfl,
    hval,
    show skipJsonWS (',' :: '"' :: 'm' :: 'a' :: 'x' :: '_' :: 't' :: 'o' :: 'k' :: 'e' :: 'n' :: 's' :: '"' :: ':' :: '2' :: '0' :: '0' :: '0' :: ',' :: '"' :: 'm' :: 'e' :: 's' :: 's' :: 'a' :: 'g' :: 'e' :: 's' :: '"' :: ':' :: '[' :: '\x7b' :: '"' :: 'r' :: 'o' :: 'l' :: 'e' :: '"' :: ':' :: '"' :: 'u' :: 's' :: 'e' :: 'r' :: '"' :: ',' :: '"' :: 'c' :: 'o' :: 'n' :: 't' :: 'e' :: 'n' :: 't' :: '"' :: ':' :: '"' :: (encodeStringBody prompt.data ++ '"' :: '\x7d' :: ']' :: ['\x7d'])) = (',' :: '"' :: 'm' :: 'a' :: 'x' :: '_' :: 't' :: 'o' :: 'k' :: 'e' :: 'n' :: 's' :: '"' :: ':' :: '2' :: '0' :: '0' :: '0' :: ',' :: '"' :: 'm' :: 'e' :: 's' :: 's' :: 'a' :: 'g' :: 'e' :: 's' :: '"' :: ':' :: '[' :: '\x7b' :: '"' :: 'r' :: 'o' :: 'l' :: 'e' :: '"' :: ':' :: '"' :: 'u' :: 's' :: 'e' :: 'r' :: '"' :: ',' :: '"' :: 'c' :: 'o' :: 'n' :: 't' :: 'e' :: 'n' :: 't' :: '"' :: ':' :: '"' :: (encodeStringBody prompt.data ++ '"' :: '\x7d' :: ']' :: ['\x7d'])) from rfl,
    show (',' == ',') = true from rfl,
    parseMembers_maxtok f prompt]
  rfl

theorem parseValue_reqBody (f : Nat) (prompt : String) :
    parseValue (f + 10) ('\x7b' :: '"' :: 'm' :: 'o' :: 'd' :: 'e' :: 'l' :: '"' :: ':' :: '"' :: 'c' :: 'l' :: 'a' :: 'u' :: 'd' :: 'e' :: '-' :: 's' :: 'o' :: 'n' :: 'n' :: 'e' :: 't' :: '-' :: '4' :: '-' :: '2' :: '0' :: '2' :: '5' :: '0' :: '5' :: '1' :: '4' :: '"' :: ',' :: '"' :: 'm' :: 'a' :: 'x' :: '_' :: 't' :: 'o' :: 'k' :: 'e' :: 'n' :: 's' :: '"' :: ':' :: '2' :: '0' :: '0' :: '0' :: ',' :: '"' :: 'm' :: 'e' :: 's' :: 's' :: 'a' :: 'g' :: 'e' :: 's' :: '"' :: ':' :: '[' :: '\x7b' :: '"' :: 'r' :: 'o' :: 'l' :: 'e' :: '"' :: ':' :: '"' :: 'u' :: 's' :: 'e' :: 'r' :: '"' :: ',' :: '"' :: 'c' :: 'o' :: 'n' :: 't' :: 'e' :: 'n' :: 't' :: '"' :: ':' :: '"' :: (encodeStringBody prompt.data ++ '"' :: '\x7d' :: ']' :: ['\x7d'])) =
      some (Json.obj [("model", Json.str "claude-sonnet-4-20250514"), ("max_tokens", Json.num 2000),
        ("messages", Json.arr [Json.obj [("role", Json.str "user"), ("content", Json.str prompt)]])], []) := by
  rw [show (f + 10 : Nat) = (f + 9) + 1 from rfl]
  rw [show parseValue ((f + 9) + 1) ('\x7b' :: '"' :: 'm' :: 'o' :: 'd' :: 'e' :: 'l' :: '"' :: ':' :: '"' :: 'c' :: 'l' :: 'a' :: 'u' :: 'd' :: 'e' :: '-' :: 's' :: 'o' :: 'n' :: 'n' :: 'e' :: 't' :: '-' :: '4' :: '-' :: '2' :: '0' :: '2' :: '5' :: '0' :: '5' :: '1' :: '4' :: '"' :: ',' :: '"' :: 'm' :: 'a' :: 'x' :: '_' :: 't' :: 'o' :: 'k' :: 'e' :: 'n' :: 's' :: '"' :: ':' :: '2' :: '0' :: '0' :: '0' :: ',' :: '"' :: 'm' :: 'e' :: 's' :: 's' :: 'a' :: 'g' :: 'e' :: 's' :: '"' :: ':' :: '[' :: '\x7b' :: '"' :: 'r' :: 'o' :: 'l' :: 'e' :: '"' :: ':' :: '"' :: 'u' :: 's' :: 'e' :: 'r' :: '"' :: ',' :: '"' :: 'c' :: 'o' :: 'n' :: 't' :: 'e' :: 'n' :: 't' :: '"' :: ':' :: '"' :: (encodeStringBody prompt.data ++ '"' :: '\x7d' :: ']' :: ['\x7d'])) =
    (parseMembers (f + 9) ('"' :: 'm' :: 'o' :: 'd' :: 'e' :: 'l' :: '"' :: ':' :: '"' :: 'c' :: 'l' :: 'a' :: 'u' :: 'd' :: 'e' :: '-' :: 's' :: 'o' :: 'n' :: 'n' :: 'e' :: 't' :: '-' :: '4' :: '-' :: '2' :: '0' :: '2' :: '5' :: '0' :: '5' :: '1' :: '4' :: '"' :: ',' :: '"' :: 'm' :: 'a' :: 'x' :: '_' :: 't' :: 'o' :: 'k' :: 'e' :: 'n' :: 's' :: '"' :: ':' :: '2' :: '0' :: '0' :: '0' :: ',' :: '"' :: 'm' :: 'e' :: 's' :: 's' :: 'a' :: 'g' :: 'e' :: 's' :: '"' :: ':' :: '[' :: '\x7b' :: '"' :: 'r' :: 'o' :: 'l' :: 'e' :: '"' :: ':' :: '"' :: 'u' :: 's' :: 'e' :: 'r' :: '"' :: ',' :: '"' :: 'c' :: 'o' :: 'n' :: 't' :: 'e' :: 'n' :: 't' :: '"' :: ':' :: '"' :: (encodeStringBody prompt.data ++ '"' :: '\x7d' :: ']' :: ['\x7d']))).map (fun p => (Json.obj p.1, p.2)) from rfl]
  rw [parseMembers_model f prompt]
  rfl

theorem marshal_data (prompt : String) :
    (marshalClaudeRequest ⟨"claude-sonnet-4-20250514", 2000, [⟨"user", prompt⟩]⟩).data =
      '\x7b' :: '"' :: 'm' :: 'o' :: 'd' :: 'e' :: 'l' :: '"' :: ':' :: '"' :: 'c' :: 'l' :: 'a' :: 'u' :: 'd' :: 'e' :: '-' :: 's' :: 'o' :: 'n' :: 'n' :: 'e' :: 't' :: '-' :: '4' :: '-' :: '2' :: '0' :: '2' :: '5' :: '0' :: '5' :: '1' :: '4' :: '"' :: ',' :: '"' :: 'm' :: 'a' :: 'x' :: '_' :: 't' :: 'o' :: 'k' :: 'e' :: 'n' :: 's' :: '"' :: ':' :: '2' :: '0' :: '0' :: '0' :: ',' :: '"' :: 'm' :: 'e' :: 's' :: 's' :: 'a' :: 'g' :: 'e' :: 's' :: '"' :: ':' :: '[' :: '\x7b' :: '"' :: 'r' :: 'o' :: 'l' :: 'e' :: '"' :: ':' :: '"' :: 'u' :: 's' :: 'e' :: 'r' :: '"' :: ',' :: '"' :: 'c' :: 'o' :: 'n' :: 't' :: 'e' :: 'n' :: 't' :: '"' :: ':' :: '"' :: (encodeStringBody prompt.data ++ '"' :: '\x7d' :: ']' :: ['\x7d']) := by
  unfold marshalClaudeRequest marshalClaudeMessage commaSep
  rw [show toString ((⟨"claude-sonnet-4-20250514", 2000, [⟨"user", prompt⟩]⟩ : claudeRequest).maxTokens) = "2000" from rfl]
  unfold encodeString
  simp [String.data_append,
    show encodeStringBody ['c', 'l', 'a', 'u', 'd', 'e', '-', 's', 'o', 'n', 'n', 'e', 't', '-', '4', '-', '2', '0', '2', '5', '0', '5', '1', '4'] = ['c', 'l', 'a', 'u', 'd', 'e', '-', 's', 'o', 'n', 'n', 'e', 't', '-', '4', '-', '2', '0', '2', '5', '0', '5', '1', '4'] from rfl,
    show encodeStringBody ['u', 's', 'e', 'r'] = ['u', 's', 'e', 'r'] from rfl]

theorem parseJsonStr_reqBody (prompt : String) :
    parseJsonStr (marshalClaudeRequest ⟨"claude-sonnet-4-20250514", 2000, [⟨"user", prompt⟩]⟩) =
      some (Json.obj [("model", Json.str "claude-sonnet-4-20250514"), ("max_tokens", Json.num 2000),
        ("messages", Json.arr [Json.obj [("role", Json.str "user"), ("content", Json.str prompt)]])]) := by
  unfold parseJsonStr
  rw [marshal_data prompt]
  generalize (2 * (('\x7b' :: '"' :: 'm' :: 'o' :: 'd' :: 'e' :: 'l' :: '"' :: ':' :: '"' :: 'c' :: 'l' :: 'a' :: 'u' :: 'd' :: 'e' :: '-' :: 's' :: 'o' :: 'n' :: 'n' :: 'e' :: 't' :: '-' :: '4' :: '-' :: '2' :: '0' :: '2' :: '5' :: '0' :: '5' :: '1' :: '4' :: '"' :: ',' :: '"' :: 'm' :: 'a' :: 'x' :: '_' :: 't' :: 'o' :: 'k' :: 'e' :: 'n' :: 's' :: '"' :: ':' :: '2' :: '0' :: '0' :: '0' :: ',' :: '"' :: 'm' :: 'e' :: 's' :: 's' :: 'a' :: 'g' :: 'e' :: 's' :: '"' :: ':' :: '[' :: '\x7b' :: '"' :: 'r' :: 'o' :: 'l' :: 'e' :: '"' :: ':' :: '"' :: 'u' :: 's' :: 'e' :: 'r' :: '"' :: ',' :: '"' :: 'c' :: 'o' :: 'n' :: 't' :: 'e' :: 'n' :: 't' :: '"' :: ':' :: '"' :: (encodeStringBody prompt.data ++ '"' :: '\x7d' :: ']' :: ['\x7d'])).length) : Nat) = F
  rw [show F + 20 = (F + 10) + 10 from rfl]
  rw [show skipJsonWS ('\x7b' :: '"' :: 'm' :: 'o' :: 'd' :: 'e' :: 'l' :: '"' :: ':' :: '"' :: 'c' :: 'l' :: 'a' :: 'u' :: 'd' :: 'e' :: '-' :: 's' :: 'o' :: 'n' :: 'n' :: 'e' :: 't' :: '-' :: '4' :: '-' :: '2' :: '0' :: '2' :: '5' :: '0' :: '5' :: '1' :: '4' :: '"' :: ',' :: '"' :: 'm' :: 'a' :: 'x' :: '_' :: 't' :: 'o' :: 'k' :: 'e' :: 'n' :: 's' :: '"' :: ':' :: '2' :: '0' :: '0' :: '0' :: ',' :: '"' :: 'm' :: 'e' :: 's' :: 's' :: 'a' :: 'g' :: 'e' :: 's' :: '"' :: ':' :: '[' :: '\x7b' :: '"' :: 'r' :: 'o' :: 'l' :: 'e' :: '"' :: ':' :: '"' :: 'u' :: 's' :: 'e' :: 'r' :: '"' :: ',' :: '"' :: 'c' :: 'o' :: 'n' :: 't' :: 'e' :: 'n' :: 't' :: '"' :: ':' :: '"' :: (encodeStringBody prompt.data ++ '"' :: '\x7d' :: ']' :: ['\x7d'])) = '\x7b' :: '"' :: 'm' :: 'o' :: 'd' :: 'e' :: 'l' :: '"' :: ':' :: '"' :: 'c' :: 'l' :: 'a' :: 'u' :: 'd' :: 'e' :: '-' :: 's' :: 'o' :: 'n' :: 'n' :: 'e' :: 't' :: '-' :: '4' :: '-' :: '2' :: '0' :: '2' :: '5' :: '0' :: '5' :: '1' :: '4' :: '"' :: ',' :: '"' :: 'm' :: 'a' :: 'x' :: '_' :: 't' :: 'o' :: 'k' :: 'e' :: 'n' :: 's' :: '"' :: ':' :: '2' :: '0' :: '0' :: '0' :: ',' :: '"' :: 'm' :: 'e' :: 's' :: 's' :: 'a' :: 'g' :: 'e' :: 's' :: '"' :: ':' :: '[' :: '\x7b' :: '"' :: 'r' :: 'o' :: 'l' :: 'e' :: '"' :: ':' :: '"' :: 'u' :: 's' :: 'e' :: 'r' :: '"' :: ',' :: '"' :: 'c' :: 'o' :: 'n' :: 't' :: 'e' :: 'n' :: 't' :: '"' :: ':' :: '"' :: (encodeStringBody prompt.data ++ '"' :: '\x7d' :: ']' :: ['\x7d']) from rfl]
  rw [parseValue_reqBody (F + 10) prompt]
  rfl

/-- C9: every Verify call issues a POST to the fixed messages URL with
exactly the three headers of claude.go (the key header carrying the
credential of the client), and a JSON body that encodes the fixed model
identifier, max_tokens 2000, and a single user-role message whose content
is the rendered prompt. -/
theorem VerifyRequest_spec :
    ∀ (apiKey specContent : String) (codeContents : List (String × String)) (p : ClaudeProvider),
      NewClaudeProvider apiKey = Except.ok p →
      (VerifyRequest p specContent codeContents).method = "POST" ∧
      (VerifyRequest p specContent codeContents).url = "https://api.anthropic.com/v1/messages" ∧
      (VerifyRequest p specContent codeContents).headers =
        [("Content-Type", "application/json"), ("x-api-key", apiKey),
          ("anthropic-version", "2023-06-01")] ∧
      parseJsonStr (VerifyRequest p specContent codeContents).body =
        some (Json.obj [("model", Json.str "claude-sonnet-4-20250514"),
          ("max_tokens", Json.num 2000),
          ("messages", Json.arr [Json.obj [("role", Json.str "user"),
            ("content", Json.str (buildVerificationPrompt specContent codeContents))]])]) := by
  intro apiKey specContent codeContents p hp
  unfold NewClaudeProvider at hp
  by_cases h : (apiKey == "") = true
  · rw [if_pos h] at hp
    simp at hp
  rw [if_neg h] at hp
  have hp' : p = ⟨apiKey, "claude-sonnet-4-20250514"⟩ := by
    injection hp with h2
    exact h2.symm
  have hb : (VerifyRequest p specContent codeContents).body =
      marshalClaudeRequest ⟨"claude-sonnet-4-20250514", 2000,
        [⟨"user", buildVerificationPrompt specContent codeContents⟩]⟩ := by
    rw [hp']
    rfl
  refine ⟨by rw [hp']; rfl, by rw [hp']; rfl, by rw [hp']; rfl, ?_⟩
  rw [hb, parseJsonStr_reqBody]

/-- C9 witness: a concrete request carries the method, URL, headers and
a body that decodes back to the expected JSON value. -/
theorem VerifyRequest_spec_witness :
    (VerifyRequest ⟨"sk-test", "claude-sonnet-4-20250514"⟩ "the spec" [("main.go", "package main")]).method = "POST" ∧
    (VerifyRequest ⟨"sk-test", "claude-sonnet-4-20250514"⟩ "the spec" [("main.go", "package main")]).url = "https://api.anthropic.com/v1/messages" ∧
    (VerifyRequest ⟨"sk-test", "claude-sonnet-4-20250514"⟩ "the spec" [("main.go", "package main")]).headers =
      [("Content-Type", "application/json"), ("x-api-key", "sk-test"),
        ("anthropic-version", "2023-06-01")] ∧
    parseJsonStr (VerifyRequest ⟨"sk-test", "claude-sonnet-4-20250514"⟩ "the spec" [("main.go", "package main")]).body =
      some (Json.obj [("model", Json.str "claude-sonnet-4-20250514"),
        ("max_tokens", Json.num 2000),
        ("messages", Json.arr [Json.obj [("role", Json.str "user"),
          ("content", Json.str (buildVerificationPrompt "the spec" [("main.go", "package main")]))]])]) :=
  VerifyRequest_spec "sk-test" "the spec" [("main.go", "package main")]
    ⟨"sk-test", "claude-sonnet-4-20250514"⟩ rfl
